import Mathlib

/-! Pod service: manifest builder and lifecycle handlers.

A shallow embedding of `domain/service/pod_service_data.go` and
`handler/pod_handler.go`.

* The manifest builder (`setDeployment` and its helpers) is a pure function of
  the descriptor.
* The cluster (the Kubernetes deployments client) and the record store (the
  pod repository) are explicit state in `World`; every call to either is
  appended to `World.log`, so that "is never called" is a statement about the
  log.
* Go's `error` is an error message (`String`); `nil` is `none`.
* Logging (`common.Info`, `common.Error`) has no effect on any modelled state
  and is left out.
-/

set_option linter.dupNamespace false
set_option linter.unreachableTactic false
set_option linter.unusedTactic false

namespace PodService

/-! ## Numbers and strings of the Go runtime -/

/-- A finite `float32`: the value `(-1)^neg * mant * 2^exp`.  Every finite
`float32` has such a form with `mant < 2^24` and `-149 ≤ exp ≤ 104`; NaN and
the infinities are not modelled (`resource.MustParse` panics on their
rendering). -/
structure Float32 where
  neg : Bool
  mant : Nat
  exp : Int
  deriving DecidableEq, Repr

namespace Float32

/-- The range of the representation of a finite `float32`. -/
def Valid (x : Float32) : Prop :=
  x.mant < 2 ^ 24 ∧ -149 ≤ x.exp ∧ x.exp ≤ 104

instance (x : Float32) : Decidable x.Valid := by
  unfold Valid; infer_instance

/-- The real number a finite `float32` stands for. -/
def toRat (x : Float32) : ℚ :=
  (if x.neg then -1 else 1) * (x.mant : ℚ) * (2 : ℚ) ^ x.exp

/-- The `float32` division `x / 2`: exact while the exponent can be lowered,
and rounded to the nearest multiple of `2^-149` (ties to even) below that. -/
def half (x : Float32) : Float32 :=
  if -149 < x.exp then { x with exp := x.exp - 1 }
  else { x with mant := x.mant / 2 + (if x.mant % 2 = 1 ∧ (x.mant / 2) % 2 = 1 then 1 else 0) }

end Float32

/-- The count of millionths nearest to `mant * 2^exp`, ties to even. -/
def roundMicro (mant : Nat) (exp : Int) : Nat :=
  match exp with
  | Int.ofNat k => mant * 2 ^ k * 10 ^ 6
  | Int.negSucc k =>
    let n := mant * 10 ^ 6
    let d := 2 ^ (k + 1)
    let q := n / d
    let r := n % d
    if 2 * r < d then q else if d < 2 * r then q + 1 else q + q % 2

/-- The numeral `strconv.FormatFloat(float64(x), 'f', 6, 64)`: the exact value
of `x` rounded half-even to six fractional digits.  The numeral is held as its
signed count of millionths. -/
def FormatFloat (x : Float32) : Int :=
  if x.neg then -(roundMicro x.mant x.exp : Int) else (roundMicro x.mant x.exp : Int)

/-- A `resource.Quantity`.  Every quantity this program builds is parsed from a
numeral with six fractional digits, so it is held as a count of millionths. -/
structure Quantity where
  micro : Int
  deriving DecidableEq, Repr

/-- The number a quantity stands for. -/
def Quantity.value (q : Quantity) : ℚ := (q.micro : ℚ) / 10 ^ 6

/-- The quantity `resource.MustParse` reads from a numeral with six fractional
digits. -/
def MustParse (numeral : Int) : Quantity := ⟨numeral⟩

/-- The byte `'0' + d` of a decimal digit. -/
def digitByte (d : Nat) : Char := Char.ofNat (48 + d)

/-- The digit loop of `strconv.FormatInt` in base ten: digits are produced from
the least significant one and written in front of what is already there. -/
def formatBits : Nat → Nat → List Char → List Char
  | 0, u, acc => digitByte u :: acc
  | fuel + 1, u, acc =>
    if 10 ≤ u then formatBits fuel (u / 10) (digitByte (u % 10) :: acc)
    else digitByte u :: acc

/-- The string `strconv.FormatInt(i, 10)`. -/
def FormatInt (i : Int) : String :=
  match i with
  | Int.ofNat n => String.mk (formatBits n n [])
  | Int.negSucc n => String.mk ('-' :: formatBits (n + 1) (n + 1) [])

/-! ## Descriptor, record and manifest -/

/-- One exposed port of a descriptor (`pod.PodPort`). -/
structure PodPort where
  ContainerPort : Int
  Protocol : String
  deriving DecidableEq, Repr

/-- One environment variable of a descriptor (`pod.PodEnv`). -/
structure PodEnv where
  EnvKey : String
  EnvValue : String
  deriving DecidableEq, Repr

/-- The workload descriptor (`pod.PodInfo`), with the fields the source reads. -/
structure PodInfo where
  Id : Int
  PodNamespace : String
  PodName : String
  PodCpuMax : Float32
  PodMemoryMax : Float32
  PodReplicas : Int
  PodPort : List PodPort
  PodEnv : List PodEnv
  PodPullPolicy : String
  PodImage : String
  deriving DecidableEq, Repr

/-- A container port of the manifest (`v1core.ContainerPort`). -/
structure ContainerPort where
  Name : String
  ContainerPort : Int
  Protocol : String
  deriving DecidableEq, Repr

/-- An environment variable of the manifest (`v1core.EnvVar`); `ValueFrom` is
`true` when a reference is set. -/
structure EnvVar where
  Name : String
  Value : String
  ValueFrom : Bool
  deriving DecidableEq, Repr

/-- A `v1core.ResourceList`: a map from resource name to quantity. -/
abbrev ResourceList := List (String × Quantity)

/-- Resource requirements of a container (`v1core.ResourceRequirements`). -/
structure ResourceRequirements where
  Limits : ResourceList
  Requests : ResourceList
  deriving DecidableEq, Repr

/-- The single container of the pod template (`v1core.Container`). -/
structure Container where
  Name : String
  Image : String
  Ports : List ContainerPort
  Env : List EnvVar
  Resources : ResourceRequirements
  ImagePullPolicy : String
  deriving DecidableEq, Repr

/-- The deployment manifest (`v1.Deployment`) with the fields `setDeployment`
fills; all other fields keep their zero value. -/
structure Deployment where
  Kind : String
  APIVersion : String
  Name : String
  Namespace : String
  Labels : List (String × String)
  Replicas : Int
  MatchLabels : List (String × String)
  TemplateLabels : List (String × String)
  Containers : List Container
  deriving DecidableEq, Repr

/-- The value a map holds under a key. -/
def lookup {α : Type} (key : String) : List (String × α) → Option α
  | [] => none
  | (k, v) :: rest => if k = key then some v else lookup key rest

/-! ## The manifest builder -/

/-- Source: `getProtocol`. -/
def getProtocol (protocol : String) : String :=
  if protocol = "TCP" then "TCP"
  else if protocol = "UDP" then "UDP"
  else if protocol = "SCTP" then "SCTP"
  else "TCP"

/-- Source: `getContainerPort`; the loop appends one entry per descriptor
port. -/
def getContainerPort (podInfo : PodInfo) : List ContainerPort :=
  podInfo.PodPort.foldl
    (fun containerPortList v =>
      containerPortList ++
        [{ Name := "port-" ++ FormatInt v.ContainerPort
           ContainerPort := v.ContainerPort
           Protocol := getProtocol v.Protocol }])
    []

/-- Source: `getEnv`; the loop appends one entry per descriptor variable. -/
def getEnv (podInfo : PodInfo) : List EnvVar :=
  podInfo.PodEnv.foldl
    (fun envList v =>
      envList ++ [{ Name := v.EnvKey, Value := v.EnvValue, ValueFrom := false }])
    []

/-- Source: `getResources`. -/
def getResources (podInfo : PodInfo) : ResourceRequirements :=
  { Limits :=
      [("cpu", MustParse (FormatFloat podInfo.PodCpuMax)),
       ("memory", MustParse (FormatFloat podInfo.PodMemoryMax))]
    Requests :=
      [("cpu", MustParse (FormatFloat podInfo.PodCpuMax.half)),
       ("memory", MustParse (FormatFloat podInfo.PodMemoryMax.half))] }

/-- Source: `getImagePullPolicy`. -/
def getImagePullPolicy (podInfo : PodInfo) : String :=
  if podInfo.PodPullPolicy = "Always" then "Always"
  else if podInfo.PodPullPolicy = "Never" then "Never"
  else if podInfo.PodPullPolicy = "IfNotPresent" then "IfNotPresent"
  else "Always"

/-- Source: `setDeployment`, as the manifest it stores in the service. -/
def setDeployment (podInfo : PodInfo) : Deployment :=
  { Kind := "deployment"
    APIVersion := "v1"
    Name := podInfo.PodName
    Namespace := podInfo.PodNamespace
    Labels := [("app-name", podInfo.PodName), ("author", "lzg")]
    Replicas := podInfo.PodReplicas
    MatchLabels := [("app-name", podInfo.PodName)]
    TemplateLabels := [("app-name", podInfo.PodName)]
    Containers :=
      [{ Name := podInfo.PodName
         Image := podInfo.PodImage
         Ports := getContainerPort podInfo
         Env := getEnv podInfo
         Resources := getResources podInfo
         ImagePullPolicy := getImagePullPolicy podInfo }] }

/-- The container of a manifest that carries the resource requirements. -/
def Deployment.resources (d : Deployment) : Option ResourceRequirements :=
  d.Containers.head?.map (fun c => c.Resources)

/-! ## The record store and the cluster -/

/-- Modelled from the spec: the durable record `model.Pod`, whose declaration
lies outside the sources at hand: the surrogate ID plus the same descriptive
fields as the descriptor. -/
structure Pod where
  ID : Int
  PodNamespace : String
  PodName : String
  PodCpuMax : Float32
  PodMemoryMax : Float32
  PodReplicas : Int
  PodPort : List PodPort
  PodEnv : List PodEnv
  PodPullPolicy : String
  PodImage : String
  deriving DecidableEq, Repr

/-- The zero value `model.Pod{}`. -/
def Pod.zero : Pod :=
  ⟨0, "", "", ⟨false, 0, 0⟩, ⟨false, 0, 0⟩, 0, [], [], "", ""⟩

/-- The zero value `pod.PodInfo{}`. -/
def PodInfo.zero : PodInfo :=
  ⟨0, "", "", ⟨false, 0, 0⟩, ⟨false, 0, 0⟩, 0, [], [], "", ""⟩

/-- A call that leaves the process: to the deployments client of the cluster
or to the pod repository. -/
inductive Call where
  | Get (ns name : String)
  | Create (ns : String) (d : Deployment)
  | Update (ns : String) (d : Deployment)
  | Delete (ns name : String)
  | CreatePod (p : Pod)
  | DeletePodByID (id : Int)
  | UpdatePod (p : Pod)
  | FindPodByID (id : Int)
  | FindAll
  deriving DecidableEq, Repr

/-- Whether a call goes to the cluster. -/
def Call.isGateway : Call → Bool
  | .Get _ _ | .Create _ _ | .Update _ _ | .Delete _ _ => true
  | _ => false

/-- Whether a call goes to the record store. -/
def Call.isStore (c : Call) : Bool := !c.isGateway

/-- What the process cannot see of its collaborators: which calls the control
plane or the storage engine fails (with which error), and the field copy
`common.SwapTo` between a descriptor and a record, which may fail as well. -/
structure Env where
  fault : Call → Option String
  swapToPod : PodInfo → Pod → Except String Pod
  swapToInfo : Pod → PodInfo → Except String PodInfo

/-- The state the program acts on: the live deployments of the cluster, the
records of the store with its next free ID, the manifest retained in the
service (`PodDataService.deployment`), and the calls made so far, oldest
first. -/
structure World where
  cluster : List Deployment
  records : List Pod
  nextID : Int
  deployment : Deployment
  log : List Call
  deriving DecidableEq, Repr

/-- The state after one more call has been made. -/
def World.record (w : World) (c : Call) : World :=
  { w with log := w.log ++ [c] }

/-- The live deployment of a name in a namespace. -/
def findDeployment (cluster : List Deployment) (ns name : String) : Option Deployment :=
  cluster.find? (fun d => decide (d.Namespace = ns ∧ d.Name = name))

/-- Modelled from the spec: the gateway's `Get` of section 4.2 (the Kubernetes
client is not part of the sources): an error when the control plane fails the
call or no such deployment is live. -/
def k8sGet (E : Env) (ns name : String) (w : World) : Except String Deployment × World :=
  let w1 := w.record (.Get ns name)
  match E.fault (.Get ns name) with
  | some e => (.error e, w1)
  | none =>
    match findDeployment w.cluster ns name with
    | some d => (.ok d, w1)
    | none => (.error ("deployments.apps \"" ++ name ++ "\" not found"), w1)

/-- Modelled from the spec: the gateway's `Create`: fails when the control
plane fails the call or the name is taken, and otherwise makes the manifest
live. -/
def k8sCreate (E : Env) (ns : String) (d : Deployment) (w : World) :
    Except String Deployment × World :=
  let w1 := w.record (.Create ns d)
  match E.fault (.Create ns d) with
  | some e => (.error e, w1)
  | none =>
    match findDeployment w.cluster ns d.Name with
    | some _ => (.error ("deployments.apps \"" ++ d.Name ++ "\" already exists"), w1)
    | none => (.ok d, { w1 with cluster := w.cluster ++ [d] })

/-- Modelled from the spec: the gateway's `Update`: fails when the control
plane fails the call or no such deployment is live, and otherwise replaces the
live manifest. -/
def k8sUpdate (E : Env) (ns : String) (d : Deployment) (w : World) :
    Except String Deployment × World :=
  let w1 := w.record (.Update ns d)
  match E.fault (.Update ns d) with
  | some e => (.error e, w1)
  | none =>
    match findDeployment w.cluster ns d.Name with
    | none => (.error ("deployments.apps \"" ++ d.Name ++ "\" not found"), w1)
    | some _ =>
      (.ok d, { w1 with cluster := w.cluster.map (fun old =>
        if old.Namespace = ns ∧ old.Name = d.Name then d else old) })

/-- Modelled from the spec: the gateway's `Delete`: fails when the control plane
fails the call or no such deployment is live, and otherwise removes it. -/
def k8sDelete (E : Env) (ns name : String) (w : World) : Option String × World :=
  let w1 := w.record (.Delete ns name)
  match E.fault (.Delete ns name) with
  | some e => (some e, w1)
  | none =>
    match findDeployment w.cluster ns name with
    | none => (some ("deployments.apps \"" ++ name ++ "\" not found"), w1)
    | some _ =>
      (none, { w1 with cluster := w.cluster.filter (fun d =>
        !decide (d.Namespace = ns ∧ d.Name = name)) })

namespace PodRepository

/-- Modelled from the spec: `IPodRepository.CreatePod` (the repository package
is not part of the sources), `Create(record) → id | error`: the record is
stored under the next free ID, which is returned. -/
def CreatePod (E : Env) (pod : Pod) (w : World) : Except String Int × World :=
  let w1 := w.record (.CreatePod pod)
  match E.fault (.CreatePod pod) with
  | some e => (.error e, w1)
  | none =>
    (.ok w.nextID,
      { w1 with records := w.records ++ [{ pod with ID := w.nextID }], nextID := w.nextID + 1 })

/-- Modelled from the spec: `IPodRepository.DeletePodByID`,
`Delete(id) → error`. -/
def DeletePodByID (E : Env) (podId : Int) (w : World) : Option String × World :=
  let w1 := w.record (.DeletePodByID podId)
  match E.fault (.DeletePodByID podId) with
  | some e => (some e, w1)
  | none => (none, { w1 with records := w.records.filter (fun r => !decide (r.ID = podId)) })

/-- Modelled from the spec: `IPodRepository.UpdatePod`,
`Update(record) → error`: the record of the same ID is replaced. -/
def UpdatePod (E : Env) (pod : Pod) (w : World) : Option String × World :=
  let w1 := w.record (.UpdatePod pod)
  match E.fault (.UpdatePod pod) with
  | some e => (some e, w1)
  | none =>
    (none, { w1 with records := w.records.map (fun r => if r.ID = pod.ID then pod else r) })

/-- Modelled from the spec: `IPodRepository.FindPodByID`,
`FindByID(id) → record | error`. -/
def FindPodByID (E : Env) (podId : Int) (w : World) : Except String Pod × World :=
  let w1 := w.record (.FindPodByID podId)
  match E.fault (.FindPodByID podId) with
  | some e => (.error e, w1)
  | none =>
    match w.records.find? (fun r => decide (r.ID = podId)) with
    | some r => (.ok r, w1)
    | none => (.error "record not found", w1)

/-- Modelled from the spec: `IPodRepository.FindAll`,
`FindAll() → sequence of record`. -/
def FindAll (E : Env) (w : World) : Except String (List Pod) × World :=
  let w1 := w.record .FindAll
  match E.fault .FindAll with
  | some e => (.error e, w1)
  | none => (.ok w.records, w1)

end PodRepository

/-! ## The service -/

namespace PodDataService

/-- Source: `PodDataService.AddPod`. -/
def AddPod (E : Env) (pod : Pod) (w : World) : Except String Int × World :=
  PodRepository.CreatePod E pod w

/-- Source: `PodDataService.DeletePod`. -/
def DeletePod (E : Env) (podId : Int) (w : World) : Option String × World :=
  PodRepository.DeletePodByID E podId w

/-- Source: `PodDataService.UpdatePod`. -/
def UpdatePod (E : Env) (pod : Pod) (w : World) : Option String × World :=
  PodRepository.UpdatePod E pod w

/-- Source: `PodDataService.FindPodByID`. -/
def FindPodByID (E : Env) (podId : Int) (w : World) : Except String Pod × World :=
  PodRepository.FindPodByID E podId w

/-- Source: `PodDataService.FindAllPod`. -/
def FindAllPod (E : Env) (w : World) : Except String (List Pod) × World :=
  PodRepository.FindAll E w

/-- Source: `PodDataService.CreateToK8s`. -/
def CreateToK8s (E : Env) (podInfo : PodInfo) (w : World) : Option String × World :=
  let w1 := { w with deployment := setDeployment podInfo }
  match k8sGet E podInfo.PodNamespace podInfo.PodName w1 with
  | (.error _, w2) =>
    match k8sCreate E podInfo.PodNamespace w2.deployment w2 with
    | (.error createErr, w3) => (some createErr, w3)
    | (.ok _, w3) => (none, w3)
  | (.ok _, w2) => (some ("Pod " ++ podInfo.PodName ++ " already exist"), w2)

/-- Source: `PodDataService.DeleteFromK8s`. -/
def DeleteFromK8s (E : Env) (podInfo : Pod) (w : World) : Option String × World :=
  match k8sDelete E podInfo.PodNamespace podInfo.PodName w with
  | (some deleteErr, w1) => (some deleteErr, w1)
  | (none, w1) =>
    match DeletePod E podInfo.ID w1 with
    | (some err, w2) => (some err, w2)
    | (none, w2) => (none, w2)

/-- Source: `PodDataService.UpdateToK8s`. -/
def UpdateToK8s (E : Env) (podInfo : PodInfo) (w : World) : Option String × World :=
  let w1 := { w with deployment := setDeployment podInfo }
  match k8sGet E podInfo.PodNamespace podInfo.PodName w1 with
  | (.error _, w2) => (some ("Pod " ++ podInfo.PodName ++ " pod not exist"), w2)
  | (.ok _, w2) =>
    match k8sUpdate E podInfo.PodNamespace w2.deployment w2 with
    | (.error updateErr, w3) => (some updateErr, w3)
    | (.ok _, w3) => (none, w3)

end PodDataService

/-! ## The handlers -/

/-- The reply message of a handler (`pod.Response`). -/
structure Response where
  Msg : String
  deriving DecidableEq, Repr

/-- What a handler leaves behind: the error it returns, its reply and the
state. -/
structure Outcome where
  err : Option String
  response : Response
  world : World
  deriving DecidableEq, Repr

namespace PodHandler

/-- Source: `PodHandler.AddPod`. -/
def AddPod (E : Env) (info : PodInfo) (response : Response) (w : World) : Outcome :=
  match E.swapToPod info Pod.zero with
  | .error err => ⟨some err, { response with Msg := err }, w⟩
  | .ok podModel =>
    match PodDataService.CreateToK8s E info w with
    | (some err, w1) => ⟨some err, { response with Msg := err }, w1⟩
    | (none, w1) =>
      match PodDataService.AddPod E podModel w1 with
      | (.error err, w2) => ⟨some err, { response with Msg := err }, w2⟩
      | (.ok podID, w2) =>
        ⟨none, { response with Msg := "Pod 添加成功数据库ID号为：" ++ FormatInt podID }, w2⟩

/-- Source: `PodHandler.DeletePod`. -/
def DeletePod (E : Env) (reqId : Int) (response : Response) (w : World) : Outcome :=
  match PodDataService.FindPodByID E reqId w with
  | (.error err, w1) => ⟨some err, { response with Msg := err }, w1⟩
  | (.ok podModel, w1) =>
    match PodDataService.DeleteFromK8s E podModel w1 with
    | (some err, w2) => ⟨some err, response, w2⟩
    | (none, w2) => ⟨none, response, w2⟩

/-- Source: `PodHandler.UpdatePod`. -/
def UpdatePod (E : Env) (info : PodInfo) (response : Response) (w : World) : Outcome :=
  match PodDataService.UpdateToK8s E info w with
  | (some err, w1) => ⟨some err, response, w1⟩
  | (none, w1) =>
    match PodDataService.FindPodByID E info.Id w1 with
    | (.error err, w2) => ⟨some err, response, w2⟩
    | (.ok podModel, w2) =>
      match E.swapToPod info podModel with
      | .error err => ⟨some err, response, w2⟩
      | .ok podModel1 =>
        match PodDataService.UpdatePod E podModel1 w2 with
        | (err, w3) => ⟨err, response, w3⟩

end PodHandler

/-- What `PodHandler.FindPodByID` leaves behind: the error it returns, the
descriptor it was given to fill, and the state. -/
structure InfoOutcome where
  err : Option String
  info : PodInfo
  world : World
  deriving DecidableEq, Repr

/-- What `PodHandler.FindAllPod` leaves behind: the error it returns, the
descriptors of its reply (`pod.AllPod`), and the state. -/
structure AllPodOutcome where
  err : Option String
  rsp : List PodInfo
  world : World
  deriving DecidableEq, Repr

namespace PodHandler

/-- Source: `PodHandler.FindPodByID`.  A failed `common.SwapTo` is taken to
leave the descriptor as it was. -/
def FindPodByID (E : Env) (reqId : Int) (info : PodInfo) (w : World) : InfoOutcome :=
  match PodDataService.FindPodByID E reqId w with
  | (.error err, w1) => ⟨some err, info, w1⟩
  | (.ok podModel, w1) =>
    match E.swapToInfo podModel info with
    | .error err => ⟨some err, info, w1⟩
    | .ok info1 => ⟨none, info1, w1⟩

/-- The loop of `PodHandler.FindAllPod`: each record is copied into a fresh
descriptor, which is appended to the reply; the first failed copy ends the
loop with its error. -/
def fillAllPod (E : Env) : List Pod → List PodInfo → Option String × List PodInfo
  | [], rsp => (none, rsp)
  | v :: rest, rsp =>
    match E.swapToInfo v PodInfo.zero with
    | .error err => (some err, rsp)
    | .ok podInfo => fillAllPod E rest (rsp ++ [podInfo])

/-- Source: `PodHandler.FindAllPod`. -/
def FindAllPod (E : Env) (rsp : List PodInfo) (w : World) : AllPodOutcome :=
  match PodDataService.FindAllPod E w with
  | (.error err, w1) => ⟨some err, rsp, w1⟩
  | (.ok allPod, w1) =>
    match fillAllPod E allPod rsp with
    | (err, rsp1) => ⟨err, rsp1, w1⟩

end PodHandler

/-- The calls a handler made: what it appended to the log. -/
def newCalls (before after : World) : List Call :=
  after.log.drop before.log.length

/-! ## Reading decimal numerals back -/

/-- The digit a byte `'0' + d` stands for. -/
def byteDigit (c : Char) : Nat := c.toNat - 48

/-- The number a string of decimal digits stands for. -/
def parseNat (cs : List Char) : Nat := Nat.ofDigits 10 (cs.map byteDigit).reverse

/-- The integer a decimal numeral with an optional leading minus stands for. -/
def parseInt (s : String) : Int :=
  match s.data with
  | [] => 0
  | c :: cs => if c = '-' then -((parseNat cs : Nat) : Int) else ((parseNat (c :: cs) : Nat) : Int)

/-- The protocol the manifest carries for a descriptor protocol, in the
spec's words: the protocol itself when it is one of the three known ones, and
TCP otherwise. -/
def protocolOrTCP (protocol : String) : String :=
  if protocol ∈ ["TCP", "UDP", "SCTP"] then protocol else "TCP"

/-- The number a resource list holds under a resource name. -/
def quantityOf (key : String) (rl : ResourceList) : Option ℚ :=
  (lookup key rl).map Quantity.value

/-- The claim C1 as stated, for one descriptor: limits equal the maxima and
requests equal half of the maxima, exactly. -/
def ExactResources (d : PodInfo) : Prop :=
  quantityOf "cpu" (getResources d).Limits = some d.PodCpuMax.toRat ∧
    quantityOf "memory" (getResources d).Limits = some d.PodMemoryMax.toRat ∧
    quantityOf "cpu" (getResources d).Requests = some (d.PodCpuMax.toRat / 2) ∧
    quantityOf "memory" (getResources d).Requests = some (d.PodMemoryMax.toRat / 2)

/-- A descriptor with `PodCpuMax = 2^-20` (about 0.00000095) and
`PodMemoryMax = 512`. -/
def tinyCpu : PodInfo :=
  { PodInfo.zero with
    PodName := "svc-a", PodNamespace := "default",
    PodCpuMax := ⟨false, 1, -20⟩, PodMemoryMax := ⟨false, 1, 9⟩ }

/-- The descriptor of the spec's end-to-end scenario: `PodCpuMax = 1.0`,
`PodMemoryMax = 512`. -/
def svcA : PodInfo :=
  { Id := 0, PodNamespace := "default", PodName := "svc-a",
    PodCpuMax := ⟨false, 1, 0⟩, PodMemoryMax := ⟨false, 1, 9⟩,
    PodReplicas := 2, PodPort := [⟨80, "TCP"⟩], PodEnv := [],
    PodPullPolicy := "", PodImage := "nginx:1.21" }

/-! ## Environments and states for examples -/

/-- Modelled from the spec: `common.SwapTo` from a descriptor into a record
when nothing goes wrong (the package is not part of the sources): the
descriptor's fields are merged into the record, every field of the descriptor
being written over the record's. -/
def copyToPod (info : PodInfo) (_pod : Pod) : Except String Pod :=
  .ok ⟨info.Id, info.PodNamespace, info.PodName, info.PodCpuMax, info.PodMemoryMax,
    info.PodReplicas, info.PodPort, info.PodEnv, info.PodPullPolicy, info.PodImage⟩

/-- Modelled from the spec: `common.SwapTo` from a record into a descriptor
when nothing goes wrong: all fields are echoed back unchanged. -/
def copyToInfo (pod : Pod) (_info : PodInfo) : Except String PodInfo :=
  .ok ⟨pod.ID, pod.PodNamespace, pod.PodName, pod.PodCpuMax, pod.PodMemoryMax,
    pod.PodReplicas, pod.PodPort, pod.PodEnv, pod.PodPullPolicy, pod.PodImage⟩

/-- An environment in which no call fails. -/
def calmEnv : Env := ⟨fun _ => none, copyToPod, copyToInfo⟩

/-- An environment in which exactly the calls satisfying `bad` fail, with the
error `e`. -/
def failingEnv (bad : Call → Bool) (e : String) : Env :=
  ⟨fun c => if bad c then some e else none, copyToPod, copyToInfo⟩

/-- The zero value `v1.Deployment{}`, which `NewPodDataService` retains. -/
def Deployment.zero : Deployment := ⟨"", "", "", "", [], 0, [], [], []⟩

/-- The empty cluster and the empty record store, with a service fresh from
`NewPodDataService`. -/
def emptyWorld : World := ⟨[], [], 1, Deployment.zero, []⟩

/-- The record of `svcA` under ID 1. -/
def svcARecord : Pod :=
  ⟨1, "default", "svc-a", ⟨false, 1, 0⟩, ⟨false, 1, 9⟩, 2, [⟨80, "TCP"⟩], [], "", "nginx:1.21"⟩

/-- A state in which `svcA` is live in the cluster and recorded under ID 1. -/
def svcAWorld : World := ⟨[setDeployment svcA], [svcARecord], 2, setDeployment svcA, []⟩

/-- Whether a call is the gateway's `Create`. -/
def Call.isCreate : Call → Bool
  | .Create _ _ => true
  | _ => false

/-- Whether a call is the gateway's `Update`. -/
def Call.isUpdate : Call → Bool
  | .Update _ _ => true
  | _ => false

/-- Whether a call is the gateway's `Delete`. -/
def Call.isDelete : Call → Bool
  | .Delete _ _ => true
  | _ => false

/-- Whether a call is the record store's `CreatePod`. -/
def Call.isCreatePod : Call → Bool
  | .CreatePod _ => true
  | _ => false

/-- The claim C9 as stated, for one descriptor: pairwise distinct (port number,
protocol) pairs give pairwise distinct generated names. -/
def DistinctPairsGiveDistinctNames (d : PodInfo) : Prop :=
  (d.PodPort.map (fun v => (v.ContainerPort, v.Protocol))).Nodup →
    ((getContainerPort d).map (fun c => c.Name)).Nodup

/-- The descriptor with port 80 exposed over TCP and over UDP. -/
def twoProtocolsOnePort : PodInfo :=
  { PodInfo.zero with PodName := "svc-a", PodPort := [⟨80, "TCP"⟩, ⟨80, "UDP"⟩] }

/-! ## Sequences of lifecycle calls -/

/-- The identity of a record at the cluster boundary: (namespace, name). -/
def Pod.identity (r : Pod) : String × String := (r.PodNamespace, r.PodName)

/-- The identity of a live workload: (namespace, name). -/
def Deployment.identity (d : Deployment) : String × String := (d.Namespace, d.Name)

/-- One lifecycle call of a caller. -/
inductive Op where
  | add (info : PodInfo)
  | update (info : PodInfo)
  | delete (podId : Int)
  deriving DecidableEq, Repr

/-- The handler a lifecycle call runs. -/
def Op.run (E : Env) (op : Op) (w : World) : Outcome :=
  match op with
  | .add info => PodHandler.AddPod E info ⟨""⟩ w
  | .update info => PodHandler.UpdatePod E info ⟨""⟩ w
  | .delete podId => PodHandler.DeletePod E podId ⟨""⟩ w

/-- A sequence of lifecycle calls, one after the other: the errors they return
and the final state. -/
def runAll (E : Env) : List Op → World → List (Option String) × World
  | [], w => ([], w)
  | op :: rest, w =>
    ((op.run E w).err :: (runAll E rest (op.run E w).world).1,
      (runAll E rest (op.run E w).world).2)

/-- The claim C16 for one state: no two records share an identity, every
record's identity names a live workload, and every live workload has a
record. -/
def OneToOne (w : World) : Prop :=
  (w.records.map Pod.identity).Nodup ∧
    (∀ r ∈ w.records, ∃ d ∈ w.cluster, d.identity = r.identity) ∧
    (∀ d ∈ w.cluster, ∃ r ∈ w.records, r.identity = d.identity)

instance (w : World) : Decidable (OneToOne w) := by
  unfold OneToOne; infer_instance

/-- An update is coherent in a state when the record stored under the
descriptor's Id, if any, has the descriptor's (namespace, name). -/
def Op.coherent (op : Op) (w : World) : Prop :=
  match op with
  | .update info =>
    ∀ r ∈ w.records, r.ID = info.Id → r.identity = (info.PodNamespace, info.PodName)
  | _ => True

instance (op : Op) (w : World) : Decidable (op.coherent w) := by
  cases op <;> unfold Op.coherent <;> infer_instance

/-- The states reached from the empty cluster and the empty record store by
lifecycle calls in an environment where nothing fails, every update being
coherent in the state it runs in. -/
inductive Reachable : World → Prop where
  | init : Reachable emptyWorld
  | step (w : World) (op : Op) : Reachable w → op.coherent w →
      Reachable (op.run calmEnv w).world

/-- What the lifecycle calls keep true besides `OneToOne`: record IDs are below
the next free ID and pairwise distinct, and no two live workloads share an
identity. -/
def Consistent (w : World) : Prop :=
  OneToOne w ∧ (∀ r ∈ w.records, r.ID < w.nextID) ∧
    (w.records.map (fun r => r.ID)).Nodup ∧ (w.cluster.map Deployment.identity).Nodup

/-- A second workload, `svc-b`, in the namespace of `svcA`. -/
def svcB : PodInfo := { svcA with PodName := "svc-b", PodImage := "redis:7" }

/-- A descriptor that names the record of `svcA` by Id and the workload
`svc-b` by name. -/
def crossed : PodInfo := { svcB with Id := 1 }

/-- The cluster and the record store of `w1` are those of `w`. -/
def Untouched (w w1 : World) : Prop :=
  w1.cluster = w.cluster ∧ w1.records = w.records ∧ w1.nextID = w.nextID

/-- A descriptor with an empty name. -/
def nameless : PodInfo := { svcA with PodName := "" }

/-- What of a state is visible outside the service: the cluster, the record
store and the calls made; the retained manifest field is left out. -/
def World.visible (w : World) : List Deployment × List Pod × Int × List Call :=
  (w.cluster, w.records, w.nextID, w.log)

/-- The state after the calls `cs` have been made and nothing else changed. -/
def World.logged (w : World) (cs : List Call) : World :=
  { w with log := w.log ++ cs }

/-- The state after the service has retained the manifest of `info` and the
calls `cs` have been made. -/
def World.after (w : World) (info : PodInfo) (cs : List Call) : World :=
  { w with deployment := setDeployment info, log := w.log ++ cs }

/-- The cluster after the live manifest of `info` has been replaced. -/
def replaceLive (info : PodInfo) (cluster : List Deployment) : List Deployment :=
  cluster.map (fun old =>
    if old.Namespace = info.PodNamespace ∧ old.Name = (setDeployment info).Name
    then setDeployment info else old)

/-- The cluster after the workload of a name in a namespace has been
removed. -/
def removeLive (ns name : String) (cluster : List Deployment) : List Deployment :=
  cluster.filter (fun d => !decide (d.Namespace = ns ∧ d.Name = name))

/-- The reply of a successful AddPod. -/
def addedMsg (podID : Int) : String := "Pod 添加成功数据库ID号为：" ++ FormatInt podID

/-- Whether a call is the record store's `DeletePodByID`. -/
def Call.isDeletePodByID : Call → Bool
  | .DeletePodByID _ => true
  | _ => false

/-- Whether a call is the record store's `UpdatePod`. -/
def Call.isUpdatePod : Call → Bool
  | .UpdatePod _ => true
  | _ => false

/-- The scenario descriptor scaled to three replicas, naming its record by
Id. -/
def svcAScaled : PodInfo := { svcA with Id := 1, PodReplicas := 3 }

/-- Whether a call is the gateway's `Get`. -/
def Call.isGet : Call → Bool
  | .Get _ _ => true
  | _ => false

/-- The gateway's Get reports the workload absent: the call goes through and
no such deployment is live. -/
def GetReportsAbsent (E : Env) (ns name : String) (w : World) : Prop :=
  E.fault (.Get ns name) = none ∧ findDeployment w.cluster ns name = none

/-- The claim C12 as stated, for AddPod: the error is nil exactly when the
conversion succeeded, Get reported the workload absent, Create succeeded and
the record insert succeeded; and when the Get call fails the handler returns a
non-nil error and makes no later call. -/
def AddPodSwallowsNothing (E : Env) (info : PodInfo) (response : Response) (w : World) :
    Prop :=
  ((PodHandler.AddPod E info response w).err = none ↔
      ∃ podModel, E.swapToPod info Pod.zero = .ok podModel ∧
        GetReportsAbsent E info.PodNamespace info.PodName w ∧
        (∃ x, (k8sCreate E info.PodNamespace (setDeployment info) w).1 = .ok x) ∧
        (∃ id, (PodRepository.CreatePod E podModel w).1 = .ok id)) ∧
    (∀ e, E.fault (.Get info.PodNamespace info.PodName) = some e →
      (PodHandler.AddPod E info response w).err ≠ none ∧
        newCalls w (PodHandler.AddPod E info response w).world =
          [.Get info.PodNamespace info.PodName])

end PodService

/-! # Theorems -/

namespace PodService

/-! ## Decimal numerals -/

theorem byteDigit_digitByte (d : Nat) (h : d < 10) : byteDigit (digitByte d) = d := by
  interval_cases d <;> rfl

theorem digitByte_ne_minus (d : Nat) (h : d < 10) : digitByte d ≠ '-' := by
  interval_cases d <;> decide

theorem map_byteDigit_digitByte (l : List Nat) (h : ∀ x ∈ l, x < 10) :
    (l.map digitByte).map byteDigit = l := by
  induction l with
  | nil => rfl
  | cons a t ih =>
    simp only [List.map_cons]
    rw [byteDigit_digitByte a (h a (List.mem_cons_self a t)),
      ih (fun x hx => h x (List.mem_cons_of_mem a hx))]

/-- The digits `formatBits` writes, most significant first. -/
theorem formatBits_eq (fuel : Nat) :
    ∀ (u : Nat) (acc : List Char), u ≤ fuel → 0 < u →
      formatBits fuel u acc = ((Nat.digits 10 u).reverse.map digitByte) ++ acc := by
  induction fuel with
  | zero => intro u acc h1 h2; omega
  | succ f ih =>
    intro u acc h1 h2
    unfold formatBits
    by_cases h10 : 10 ≤ u
    · rw [if_pos h10, ih (u / 10) _ (by omega) (by omega)]
      rw [Nat.digits_def' (by norm_num : 1 < 10) h2]
      simp
    · rw [if_neg h10, Nat.digits_of_lt 10 u (by omega) (by omega)]
      simp

theorem formatBits_zero (fuel : Nat) (acc : List Char) :
    formatBits fuel 0 acc = digitByte 0 :: acc := by
  cases fuel <;> simp [formatBits]

theorem parseNat_formatBits (n : Nat) : parseNat (formatBits n n []) = n := by
  rcases Nat.eq_zero_or_pos n with h | h
  · subst h
    rw [formatBits_zero]
    simp [parseNat, byteDigit_digitByte]
  · rw [formatBits_eq n n [] le_rfl h, List.append_nil]
    unfold parseNat
    rw [map_byteDigit_digitByte _ (by
      intro x hx
      exact Nat.digits_lt_base (by norm_num) (List.mem_reverse.mp hx))]
    rw [List.reverse_reverse, Nat.ofDigits_digits]

theorem formatBits_head (n : Nat) :
    ∃ d rest, d < 10 ∧ formatBits n n [] = digitByte d :: rest := by
  rcases Nat.eq_zero_or_pos n with h | h
  · subst h
    exact ⟨0, [], by norm_num, formatBits_zero 0 []⟩
  · rw [formatBits_eq n n [] le_rfl h, List.append_nil]
    have hne : (Nat.digits 10 n).reverse ≠ [] := by
      simpa using Nat.digits_ne_nil_iff_ne_zero.mpr (by omega)
    match hl : (Nat.digits 10 n).reverse, hne with
    | a :: t, _ =>
      refine ⟨a, t.map digitByte, ?_, by simp⟩
      have : a ∈ Nat.digits 10 n := by
        rw [← List.mem_reverse, hl]; exact List.mem_cons_self a t
      exact Nat.digits_lt_base (by norm_num) this

/-- Reading back what `FormatInt` wrote gives the integer. -/
theorem parseInt_FormatInt (i : Int) : parseInt (FormatInt i) = i := by
  cases i with
  | ofNat n =>
    obtain ⟨d, rest, hd, hfb⟩ := formatBits_head n
    have hp := parseNat_formatBits n
    unfold FormatInt parseInt
    simp only [hfb] at hp ⊢
    rw [if_neg (digitByte_ne_minus d hd), hp]
    rfl
  | negSucc n =>
    unfold FormatInt parseInt
    simp only [if_true, parseNat_formatBits]
    rfl

theorem FormatInt_injective : Function.Injective FormatInt := by
  intro a b h
  have := congrArg parseInt h
  rwa [parseInt_FormatInt, parseInt_FormatInt] at this

theorem portName_inj (a b : Int) :
    "port-" ++ FormatInt a = "port-" ++ FormatInt b ↔ a = b := by
  constructor
  · intro h
    apply FormatInt_injective
    have h2 := congrArg String.data h
    rw [String.data_append, String.data_append] at h2
    exact String.ext (List.append_cancel_left h2)
  · intro h; rw [h]

/-! ## The loops of the builder as maps -/

theorem foldl_append_singleton {α β : Type} (f : α → β) (l : List α) (init : List β) :
    l.foldl (fun acc v => acc ++ [f v]) init = init ++ l.map f := by
  induction l generalizing init with
  | nil => simp
  | cons a t ih => simp [ih]

theorem getContainerPort_eq_map (d : PodInfo) :
    getContainerPort d = d.PodPort.map (fun v =>
      { Name := "port-" ++ FormatInt v.ContainerPort
        ContainerPort := v.ContainerPort
        Protocol := getProtocol v.Protocol }) := by
  unfold getContainerPort
  rw [foldl_append_singleton]; rfl

theorem getEnv_eq_map (d : PodInfo) :
    getEnv d = d.PodEnv.map (fun v =>
      { Name := v.EnvKey, Value := v.EnvValue, ValueFrom := false }) := by
  unfold getEnv
  rw [foldl_append_singleton]; rfl

theorem getProtocol_eq (protocol : String) : getProtocol protocol = protocolOrTCP protocol := by
  unfold getProtocol protocolOrTCP
  by_cases h1 : protocol = "TCP"
  · simp [h1]
  · by_cases h2 : protocol = "UDP"
    · simp [h2]
    · by_cases h3 : protocol = "SCTP"
      · simp [h3]
      · simp [h1, h2, h3]

/-! ## Pull policy, ports and environment -/

/-- C7: `getImagePullPolicy` returns the descriptor's pull policy unchanged when
it is "Always", "Never" or "IfNotPresent" and "Always" for every other string
(the empty string and case variants such as "always" among them), so its result
is always one of the three enumerated values. -/
theorem getImagePullPolicy_enumerated (d : PodInfo) :
    getImagePullPolicy d =
        (if d.PodPullPolicy ∈ ["Always", "Never", "IfNotPresent"] then d.PodPullPolicy
         else "Always") ∧
      getImagePullPolicy d ∈ ["Always", "Never", "IfNotPresent"] ∧
      getImagePullPolicy { d with PodPullPolicy := "" } = "Always" ∧
      getImagePullPolicy { d with PodPullPolicy := "always" } = "Always" ∧
      getImagePullPolicy { d with PodPullPolicy := "ifnotpresent" } = "Always" := by
  refine ⟨?_, ?_, by simp [getImagePullPolicy], by simp [getImagePullPolicy],
    by simp [getImagePullPolicy]⟩
  · unfold getImagePullPolicy
    by_cases h1 : d.PodPullPolicy = "Always"
    · simp [h1]
    · by_cases h2 : d.PodPullPolicy = "Never"
      · simp [h2]
      · by_cases h3 : d.PodPullPolicy = "IfNotPresent"
        · simp [h3]
        · simp [h1, h2, h3]
  · unfold getImagePullPolicy
    by_cases h1 : d.PodPullPolicy = "Always"
    · simp [h1]
    · by_cases h2 : d.PodPullPolicy = "Never"
      · simp [h2]
      · by_cases h3 : d.PodPullPolicy = "IfNotPresent"
        · simp [h3]
        · simp [h1, h2, h3]

/-- C8: the container-port list of the manifest has the length and order of
the descriptor's port list: its i-th entry exists exactly when the i-th
descriptor port does, carries that port's number unchanged, and carries the
descriptor's protocol when that is "TCP", "UDP" or "SCTP" and "TCP" for every
other protocol string. -/
theorem getContainerPort_pointwise (d : PodInfo) :
    (getContainerPort d).length = d.PodPort.length ∧
      (∀ i : Nat,
        ((getContainerPort d)[i]?).map (fun c => (c.ContainerPort, c.Protocol)) =
          (d.PodPort[i]?).map (fun v =>
            (v.ContainerPort,
              if v.Protocol ∈ ["TCP", "UDP", "SCTP"] then v.Protocol else "TCP"))) ∧
      (setDeployment d).Containers.map (fun c => c.Ports) = [getContainerPort d] := by
  refine ⟨?_, fun i => ?_, rfl⟩
  · rw [getContainerPort_eq_map]; simp
  rw [getContainerPort_eq_map, List.getElem?_map]
  cases d.PodPort[i]? with
  | none => rfl
  | some v => simp [getProtocol_eq, protocolOrTCP]

/-- C10: the environment list of the manifest has the length and order of the
descriptor's list: its i-th entry exists exactly when the i-th descriptor
variable does, and has that variable's key as Name and its value as Value,
unchanged, with no ValueFrom reference; nothing is removed or reordered,
duplicates and empty keys included. -/
theorem getEnv_pointwise (d : PodInfo) :
    (getEnv d).length = d.PodEnv.length ∧
      (∀ i : Nat,
        (getEnv d)[i]? =
          (d.PodEnv[i]?).map (fun v =>
            { Name := v.EnvKey, Value := v.EnvValue, ValueFrom := false })) ∧
      getEnv { d with PodEnv := [⟨"", "x"⟩, ⟨"K", "v"⟩, ⟨"K", "v"⟩, ⟨"A", ""⟩] } =
        [⟨"", "x", false⟩, ⟨"K", "v", false⟩, ⟨"K", "v", false⟩, ⟨"A", "", false⟩] ∧
      (setDeployment d).Containers.map (fun c => c.Env) = [getEnv d] := by
  refine ⟨?_, ?_, by simp [getEnv], rfl⟩
  · rw [getEnv_eq_map]; simp
  · intro i
    rw [getEnv_eq_map, List.getElem?_map]

/-- C9 as stated fails: port 80 over TCP and port 80 over UDP differ in their
(recognised) protocol, yet both are named "port-80". -/
theorem portName_ignores_protocol :
    (twoProtocolsOnePort.PodPort.map (fun v => (v.ContainerPort, v.Protocol))).Nodup ∧
      (getContainerPort twoProtocolsOnePort).map (fun c => (c.Name, c.Protocol)) =
        [("port-80", "TCP"), ("port-80", "UDP")] ∧
      ¬ DistinctPairsGiveDistinctNames twoProtocolsOnePort := by
  refine ⟨by decide, by decide, ?_⟩
  intro h
  have hn := h (by decide)
  revert hn
  decide

/-- C9 amended: the generated name of a manifest port is "port-" followed by
the decimal port number and does not depend on the protocol; two ports get the
same name exactly when their port numbers are equal, so a descriptor whose port
numbers are pairwise distinct yields pairwise distinct port names. -/
theorem portName_from_number (d : PodInfo)
    (hdistinct : (d.PodPort.map (fun v => v.ContainerPort)).Nodup) :
    (getContainerPort d).map (fun c => c.Name) =
        d.PodPort.map (fun v => "port-" ++ FormatInt v.ContainerPort) ∧
      (∀ a b : PodPort,
        "port-" ++ FormatInt a.ContainerPort = "port-" ++ FormatInt b.ContainerPort ↔
          a.ContainerPort = b.ContainerPort) ∧
      ((getContainerPort d).map (fun c => c.Name)).Nodup := by
  have hmap : (getContainerPort d).map (fun c => c.Name) =
      (d.PodPort.map (fun v => v.ContainerPort)).map (fun n => "port-" ++ FormatInt n) := by
    rw [getContainerPort_eq_map]; simp [List.map_map, Function.comp_def]
  refine ⟨by rw [hmap]; simp [List.map_map, Function.comp_def],
    fun a b => portName_inj _ _, ?_⟩
  rw [hmap]
  exact List.Nodup.map (fun a b h => (portName_inj a b).mp h) hdistinct

/-- The amended C9 at a descriptor exposing ports 80 and 443, both over TCP. -/
theorem portName_from_number_witness :
    ((getContainerPort { PodInfo.zero with PodPort := [⟨80, "TCP"⟩, ⟨443, "TCP"⟩] }).map
      (fun c => c.Name)).Nodup :=
  (portName_from_number { PodInfo.zero with PodPort := [⟨80, "TCP"⟩, ⟨443, "TCP"⟩] }
    (by decide)).2.2

/-! ## Resources -/

/-- Rounding to millionths changes nothing when the value is a whole number of
millionths. -/
theorem roundMicro_exact (mant : Nat) (exp : Int) (n : Nat)
    (h : (mant : ℚ) * (2 : ℚ) ^ exp * 10 ^ 6 = (n : ℚ)) : roundMicro mant exp = n := by
  cases exp with
  | ofNat k =>
    simp only [Int.ofNat_eq_coe, zpow_natCast] at h
    unfold roundMicro
    exact_mod_cast h
  | negSucc k =>
    rw [zpow_negSucc] at h
    have hd : ((2 : ℚ) ^ (k + 1)) ≠ 0 := by positivity
    have h2 : mant * 10 ^ 6 = n * 2 ^ (k + 1) := by
      have : (mant : ℚ) * 10 ^ 6 = (n : ℚ) * 2 ^ (k + 1) := by
        field_simp at h
        linarith
      exact_mod_cast this
    have hpos : 0 < 2 ^ (k + 1) := by positivity
    simp only [roundMicro, h2, Nat.mul_mod_left, Nat.mul_div_cancel _ hpos]
    simp

/-- The sign of a finite `float32` as a rational. -/
theorem toRat_eq (x : Float32) :
    x.toRat = (if x.neg then -1 else 1) * ((x.mant : ℚ) * (2 : ℚ) ^ x.exp) := by
  unfold Float32.toRat; ring

/-- A value that is a whole number of millionths is rendered and parsed back
without loss. -/
theorem value_FormatFloat_exact (x : Float32) (h : ∃ k : ℤ, x.toRat = (k : ℚ) / 10 ^ 6) :
    (MustParse (FormatFloat x)).value = x.toRat := by
  obtain ⟨k, hk⟩ := h
  have hnn : (0 : ℚ) ≤ (x.mant : ℚ) * (2 : ℚ) ^ x.exp := by positivity
  have key : ∃ n : Nat, (x.mant : ℚ) * (2 : ℚ) ^ x.exp * 10 ^ 6 = (n : ℚ) := by
    rw [toRat_eq] at hk
    by_cases hs : x.neg = true
    · simp only [hs, if_true] at hk
      have h1 : (x.mant : ℚ) * (2 : ℚ) ^ x.exp * 10 ^ 6 = ((-k : ℤ) : ℚ) := by
        push_cast; field_simp at hk; linarith
      have h0 : (0 : ℤ) ≤ -k := by
        have : (0 : ℚ) ≤ ((-k : ℤ) : ℚ) := by rw [← h1]; positivity
        exact_mod_cast this
      refine ⟨(-k).toNat, ?_⟩
      rw [h1]
      exact_mod_cast (Int.toNat_of_nonneg h0).symm
    · simp only [hs, if_false] at hk
      have h1 : (x.mant : ℚ) * (2 : ℚ) ^ x.exp * 10 ^ 6 = ((k : ℤ) : ℚ) := by
        field_simp at hk; linarith
      have h0 : (0 : ℤ) ≤ k := by
        have : (0 : ℚ) ≤ ((k : ℤ) : ℚ) := by rw [← h1]; positivity
        exact_mod_cast this
      refine ⟨k.toNat, ?_⟩
      rw [h1]
      exact_mod_cast (Int.toNat_of_nonneg h0).symm
  obtain ⟨n, hn⟩ := key
  have hr := roundMicro_exact x.mant x.exp n hn
  rw [toRat_eq]
  unfold MustParse FormatFloat Quantity.value
  rw [hr]
  by_cases hs : x.neg = true
  · simp only [hs, if_true]
    push_cast
    rw [← hn]; field_simp
  · simp only [hs, if_false]
    push_cast
    rw [← hn]; field_simp

theorem even_of_million_eq (m : Nat) (P : ℤ) (h : (m : ℤ) * 1000000 = 128 * P) :
    m % 2 = 0 := by
  have h2 : (m : ℤ) * 15625 = 2 * P := by linarith
  have he : Even ((m : ℤ) * 15625) := ⟨P, by rw [h2]; ring⟩
  rcases Int.even_mul.mp he with h3 | h3
  · exact Nat.even_iff.mp ((Int.even_coe_nat m).mp h3)
  · exact absurd h3 (by decide)

/-- Halving in `float32` is exact when the half is a whole number of
millionths. -/
theorem toRat_half_exact (x : Float32) (h : ∃ k : ℤ, x.toRat / 2 = (k : ℚ) / 10 ^ 6) :
    x.half.toRat = x.toRat / 2 := by
  unfold Float32.half
  by_cases he : -149 < x.exp
  · rw [if_pos he]
    simp only [Float32.toRat]
    rw [zpow_sub_one₀ (by norm_num : (2 : ℚ) ≠ 0)]
    ring
  · rw [if_neg he]
    obtain ⟨k, hk⟩ := h
    obtain ⟨j, hj⟩ : ∃ j : Nat, x.exp = Int.negSucc (j + 148) := by
      refine ⟨(-149 - x.exp).toNat, ?_⟩
      have : ((-149 - x.exp).toNat : Int) = -149 - x.exp := Int.toNat_of_nonneg (by omega)
      rw [Int.negSucc_eq]; push_cast; omega
    obtain ⟨T, hT⟩ : ∃ T : ℤ, (2 : ℚ) ^ (j + 149) = 128 * (T : ℚ) := by
      refine ⟨2 ^ (j + 142), ?_⟩
      push_cast
      rw [show j + 149 = (j + 142) + 7 by ring, pow_add]
      norm_num
      ring
    have hT0 : (T : ℚ) ≠ 0 := by
      intro h0
      have : (2 : ℚ) ^ (j + 149) ≠ 0 := by positivity
      rw [hT, h0] at this
      simp at this
    have hpow : (2 : ℚ) ^ x.exp = (128 * (T : ℚ))⁻¹ := by
      rw [hj, zpow_negSucc, ← hT]
    have heven : x.mant % 2 = 0 := by
      rw [toRat_eq, hpow] at hk
      have h1 : ∃ P : ℤ, (x.mant : ℤ) * 1000000 = 128 * P := by
        cases hs : x.neg with
        | true =>
          rw [hs] at hk
          simp only [if_true] at hk
          field_simp at hk
          refine ⟨-(k * 2 * T), ?_⟩
          have : ((x.mant : ℤ) : ℚ) * 1000000 = ((128 * -(k * 2 * T) : ℤ) : ℚ) := by
            push_cast; norm_num at hk; linarith
          exact_mod_cast this
        | false =>
          rw [hs] at hk
          simp only [Bool.false_eq_true, if_false] at hk
          field_simp at hk
          refine ⟨k * 2 * T, ?_⟩
          have : ((x.mant : ℤ) : ℚ) * 1000000 = ((128 * (k * 2 * T) : ℤ) : ℚ) := by
            push_cast; norm_num at hk; linarith
          exact_mod_cast this
      obtain ⟨P, hP⟩ := h1
      exact even_of_million_eq x.mant P hP
    have hdiv : ((x.mant / 2 : Nat) : ℚ) = (x.mant : ℚ) / 2 := by
      obtain ⟨c, hc⟩ : ∃ c, x.mant = 2 * c := ⟨x.mant / 2, by omega⟩
      rw [hc]; simp
    have hz : (if x.mant % 2 = 1 ∧ x.mant / 2 % 2 = 1 then 1 else 0) = 0 := by
      rw [if_neg]; omega
    simp only [Float32.toRat, hz, Nat.add_zero, hdiv]
    ring

/-- C1 as stated fails: with `PodCpuMax = 2^-20 > 0` the limit is 0.000001,
which is not `PodCpuMax`, and the request is 0, which is not half of it. -/
theorem getResources_rounds_to_six_decimals :
    0 < tinyCpu.PodCpuMax.toRat ∧ 0 < tinyCpu.PodMemoryMax.toRat ∧
      tinyCpu.PodCpuMax.Valid ∧ tinyCpu.PodMemoryMax.Valid ∧
      lookup "cpu" (getResources tinyCpu).Limits = some ⟨1⟩ ∧
      lookup "cpu" (getResources tinyCpu).Requests = some ⟨0⟩ ∧
      ¬ ExactResources tinyCpu := by
  refine ⟨?_, ?_, by decide, by decide, by decide, by decide, ?_⟩
  · norm_num [tinyCpu, PodInfo.zero, Float32.toRat]
  · norm_num [tinyCpu, PodInfo.zero, Float32.toRat]
  · intro h
    have h3 := h.2.2.1
    have hl : lookup "cpu" (getResources tinyCpu).Requests = some ⟨0⟩ := by decide
    rw [quantityOf, hl] at h3
    norm_num [tinyCpu, PodInfo.zero, Float32.toRat, Quantity.value] at h3

/-- C1 amended: for every descriptor whose half maxima `PodCpuMax / 2` and
`PodMemoryMax / 2` are whole numbers of millionths (the six decimals the
quantities are rendered with), the requirements built by `getResources`, which
`setDeployment` places in the manifest's container, have Limits cpu and memory
equal exactly to `PodCpuMax` and `PodMemoryMax` and Requests cpu and memory
equal exactly to half of each. -/
theorem getResources_exact (d : PodInfo)
    (hcpu : ∃ k : ℤ, d.PodCpuMax.toRat / 2 = (k : ℚ) / 10 ^ 6)
    (hmem : ∃ k : ℤ, d.PodMemoryMax.toRat / 2 = (k : ℚ) / 10 ^ 6) :
    ExactResources d ∧ (setDeployment d).resources = some (getResources d) := by
  have double : ∀ x : Float32, (∃ k : ℤ, x.toRat / 2 = (k : ℚ) / 10 ^ 6) →
      ∃ k : ℤ, x.toRat = (k : ℚ) / 10 ^ 6 := by
    rintro x ⟨k, hk⟩
    refine ⟨2 * k, ?_⟩
    push_cast
    linarith
  have halfq : ∀ x : Float32, (∃ k : ℤ, x.toRat / 2 = (k : ℚ) / 10 ^ 6) →
      ∃ k : ℤ, x.half.toRat = (k : ℚ) / 10 ^ 6 := by
    rintro x ⟨k, hk⟩
    exact ⟨k, by rw [toRat_half_exact x ⟨k, hk⟩, hk]⟩
  refine ⟨⟨?_, ?_, ?_, ?_⟩, rfl⟩
  · simp only [quantityOf, getResources, lookup, if_true, Option.map_some']
    rw [value_FormatFloat_exact _ (double _ hcpu)]
  · simp only [quantityOf, getResources, lookup, if_true]
    rw [if_neg (by decide), Option.map_some', value_FormatFloat_exact _ (double _ hmem)]
  · simp only [quantityOf, getResources, lookup, if_true, Option.map_some']
    rw [value_FormatFloat_exact _ (halfq _ hcpu), toRat_half_exact _ hcpu]
  · simp only [quantityOf, getResources, lookup, if_true]
    rw [if_neg (by decide), Option.map_some', value_FormatFloat_exact _ (halfq _ hmem),
      toRat_half_exact _ hmem]

/-- The amended C1 at the spec's scenario: `PodCpuMax = 1.0` and
`PodMemoryMax = 512` give requests cpu 0.5, memory 256 and limits cpu 1.0,
memory 512. -/
theorem getResources_exact_witness :
    (ExactResources svcA ∧ (setDeployment svcA).resources = some (getResources svcA)) ∧
      svcA.PodCpuMax.toRat = 1 ∧ svcA.PodMemoryMax.toRat = 512 ∧
      getResources svcA =
        { Limits := [("cpu", ⟨1000000⟩), ("memory", ⟨512000000⟩)]
          Requests := [("cpu", ⟨500000⟩), ("memory", ⟨256000000⟩)] } :=
  ⟨getResources_exact svcA
      ⟨500000, by norm_num [svcA, Float32.toRat]⟩
      ⟨256000000, by norm_num [svcA, Float32.toRat]⟩,
    by norm_num [svcA, Float32.toRat], by norm_num [svcA, Float32.toRat], by decide⟩

/-! ## What each call leaves behind -/

theorem newCalls_of_log (w w1 : World) (l : List Call) (h : w1.log = w.log ++ l) :
    newCalls w w1 = l := by
  unfold newCalls
  rw [h, List.drop_left]

theorem newCalls_self (w : World) : newCalls w w = [] := by
  unfold newCalls; simp

theorem k8sGet_snd (E : Env) (ns name : String) (w : World) :
    (k8sGet E ns name w).2 = w.record (.Get ns name) := by
  unfold k8sGet
  cases E.fault (.Get ns name) with
  | some e => rfl
  | none =>
    cases findDeployment w.cluster ns name with
    | some d => rfl
    | none => rfl

theorem k8sGet_fst_congr (E : Env) (ns name : String) (w w1 : World)
    (h : w1.cluster = w.cluster) : (k8sGet E ns name w1).1 = (k8sGet E ns name w).1 := by
  unfold k8sGet
  rw [h]
  cases E.fault (.Get ns name) with
  | some e => rfl
  | none =>
    cases findDeployment w.cluster ns name with
    | some d => rfl
    | none => rfl

theorem k8sGet_eq (E : Env) (ns name : String) (w w1 : World) (h : w1.cluster = w.cluster) :
    k8sGet E ns name w1 = ((k8sGet E ns name w).1, w1.record (.Get ns name)) := by
  rw [← k8sGet_fst_congr E ns name w w1 h, ← k8sGet_snd]

theorem CreateToK8s_present (E : Env) (info : PodInfo) (w : World) (live : Deployment)
    (hget : (k8sGet E info.PodNamespace info.PodName w).1 = .ok live) :
    PodDataService.CreateToK8s E info w =
      (some ("Pod " ++ info.PodName ++ " already exist"),
        { w with deployment := setDeployment info,
                 log := w.log ++ [.Get info.PodNamespace info.PodName] }) := by
  unfold PodDataService.CreateToK8s
  simp only []
  rw [k8sGet_eq E info.PodNamespace info.PodName w
    { w with deployment := setDeployment info } rfl, hget]
  rfl

theorem k8sCreate_error (E : Env) (ns : String) (d : Deployment) (w w1 : World) (e : String)
    (hc : w1.cluster = w.cluster) (h : (k8sCreate E ns d w).1 = .error e) :
    k8sCreate E ns d w1 = (.error e, w1.record (.Create ns d)) := by
  unfold k8sCreate at h ⊢
  rw [hc]
  cases hf : E.fault (.Create ns d) with
  | some e1 => simp_all
  | none =>
    cases hd : findDeployment w.cluster ns d.Name with
    | some x => simp_all
    | none => simp_all

theorem k8sCreate_ok (E : Env) (ns : String) (d x : Deployment) (w w1 : World)
    (hc : w1.cluster = w.cluster) (h : (k8sCreate E ns d w).1 = .ok x) :
    k8sCreate E ns d w1 =
        (.ok d, { w1.record (.Create ns d) with cluster := w.cluster ++ [d] }) ∧
      findDeployment w.cluster ns d.Name = none := by
  unfold k8sCreate at h ⊢
  rw [hc]
  cases hf : E.fault (.Create ns d) with
  | some e1 => simp_all
  | none =>
    cases hd : findDeployment w.cluster ns d.Name with
    | some y => simp_all
    | none => simp_all

theorem k8sUpdate_error (E : Env) (ns : String) (d : Deployment) (w w1 : World) (e : String)
    (hc : w1.cluster = w.cluster) (h : (k8sUpdate E ns d w).1 = .error e) :
    k8sUpdate E ns d w1 = (.error e, w1.record (.Update ns d)) := by
  unfold k8sUpdate at h ⊢
  rw [hc]
  cases hf : E.fault (.Update ns d) with
  | some e1 => simp_all
  | none =>
    cases hd : findDeployment w.cluster ns d.Name with
    | some x => simp_all
    | none => simp_all

theorem k8sUpdate_ok (E : Env) (ns : String) (d x : Deployment) (w w1 : World)
    (hc : w1.cluster = w.cluster) (h : (k8sUpdate E ns d w).1 = .ok x) :
    k8sUpdate E ns d w1 =
      (.ok d, { w1.record (.Update ns d) with cluster := w.cluster.map (fun old =>
        if old.Namespace = ns ∧ old.Name = d.Name then d else old) }) := by
  unfold k8sUpdate at h ⊢
  rw [hc]
  cases hf : E.fault (.Update ns d) with
  | some e1 => simp_all
  | none =>
    cases hd : findDeployment w.cluster ns d.Name with
    | some y => simp_all
    | none => simp_all

theorem k8sDelete_error (E : Env) (ns name : String) (w w1 : World) (e : String)
    (hc : w1.cluster = w.cluster) (h : (k8sDelete E ns name w).1 = some e) :
    k8sDelete E ns name w1 = (some e, w1.record (.Delete ns name)) := by
  unfold k8sDelete at h ⊢
  rw [hc]
  cases hf : E.fault (.Delete ns name) with
  | some e1 => simp_all
  | none =>
    cases hd : findDeployment w.cluster ns name with
    | some x => simp_all
    | none => simp_all

theorem k8sDelete_ok (E : Env) (ns name : String) (w w1 : World)
    (hc : w1.cluster = w.cluster) (h : (k8sDelete E ns name w).1 = none) :
    k8sDelete E ns name w1 =
      (none, { w1.record (.Delete ns name) with cluster := w.cluster.filter (fun d =>
        !decide (d.Namespace = ns ∧ d.Name = name)) }) := by
  unfold k8sDelete at h ⊢
  rw [hc]
  cases hf : E.fault (.Delete ns name) with
  | some e1 => simp_all
  | none =>
    cases hd : findDeployment w.cluster ns name with
    | some y => simp_all
    | none => simp_all

theorem CreatePod_error (E : Env) (pod : Pod) (w w1 : World) (e : String)
    (h : (PodRepository.CreatePod E pod w).1 = .error e) :
    PodRepository.CreatePod E pod w1 = (.error e, w1.record (.CreatePod pod)) := by
  unfold PodRepository.CreatePod at h ⊢
  cases hf : E.fault (.CreatePod pod) with
  | some e1 => simp_all
  | none => simp_all

theorem CreatePod_ok (E : Env) (pod : Pod) (w w1 : World) (id : Int)
    (h : (PodRepository.CreatePod E pod w).1 = .ok id) :
    PodRepository.CreatePod E pod w1 =
      (.ok w1.nextID,
        { w1.record (.CreatePod pod) with
          records := w1.records ++ [{ pod with ID := w1.nextID }], nextID := w1.nextID + 1 }) := by
  unfold PodRepository.CreatePod at h ⊢
  cases hf : E.fault (.CreatePod pod) with
  | some e1 => simp_all
  | none => simp_all

theorem FindPodByID_eq (E : Env) (podId : Int) (w w1 : World) (hr : w1.records = w.records) :
    PodRepository.FindPodByID E podId w1 =
      ((PodRepository.FindPodByID E podId w).1, w1.record (.FindPodByID podId)) := by
  unfold PodRepository.FindPodByID
  rw [hr]
  cases E.fault (.FindPodByID podId) with
  | some e => rfl
  | none =>
    cases List.find? (fun r => decide (r.ID = podId)) w.records with
    | some r => rfl
    | none => rfl

theorem FindPodByID_ok_ID (E : Env) (podId : Int) (w : World) (r : Pod)
    (h : (PodRepository.FindPodByID E podId w).1 = .ok r) : r.ID = podId ∧ r ∈ w.records := by
  unfold PodRepository.FindPodByID at h
  cases hf : E.fault (.FindPodByID podId) with
  | some e => simp_all
  | none =>
    cases hd : List.find? (fun r => decide (r.ID = podId)) w.records with
    | none => simp_all
    | some r1 =>
      rw [hf, hd] at h
      simp only [Except.ok.injEq] at h
      subst h
      have h1 := List.find?_some hd
      exact ⟨by simpa using h1, List.mem_of_find?_eq_some hd⟩

theorem DeletePodByID_error (E : Env) (podId : Int) (w w1 : World) (e : String)
    (h : (PodRepository.DeletePodByID E podId w).1 = some e) :
    PodRepository.DeletePodByID E podId w1 = (some e, w1.record (.DeletePodByID podId)) := by
  unfold PodRepository.DeletePodByID at h ⊢
  cases hf : E.fault (.DeletePodByID podId) with
  | some e1 => simp_all
  | none => simp_all

theorem DeletePodByID_ok (E : Env) (podId : Int) (w w1 : World)
    (h : (PodRepository.DeletePodByID E podId w).1 = none) :
    PodRepository.DeletePodByID E podId w1 =
      (none, { w1.record (.DeletePodByID podId) with
        records := w1.records.filter (fun r => !decide (r.ID = podId)) }) := by
  unfold PodRepository.DeletePodByID at h ⊢
  cases hf : E.fault (.DeletePodByID podId) with
  | some e1 => simp_all
  | none => simp_all

theorem UpdatePod_error (E : Env) (pod : Pod) (w w1 : World) (e : String)
    (h : (PodRepository.UpdatePod E pod w).1 = some e) :
    PodRepository.UpdatePod E pod w1 = (some e, w1.record (.UpdatePod pod)) := by
  unfold PodRepository.UpdatePod at h ⊢
  cases hf : E.fault (.UpdatePod pod) with
  | some e1 => simp_all
  | none => simp_all

theorem UpdatePod_ok (E : Env) (pod : Pod) (w w1 : World)
    (h : (PodRepository.UpdatePod E pod w).1 = none) :
    PodRepository.UpdatePod E pod w1 =
      (none, { w1.record (.UpdatePod pod) with
        records := w1.records.map (fun r => if r.ID = pod.ID then pod else r) }) := by
  unfold PodRepository.UpdatePod at h ⊢
  cases hf : E.fault (.UpdatePod pod) with
  | some e1 => simp_all
  | none => simp_all

/-! ## The service operations, case by case -/

theorem CreateToK8s_create_fails (E : Env) (info : PodInfo) (w : World) (g e : String)
    (hget : (k8sGet E info.PodNamespace info.PodName w).1 = .error g)
    (hcreate : (k8sCreate E info.PodNamespace (setDeployment info) w).1 = .error e) :
    PodDataService.CreateToK8s E info w =
      (some e,
        { w with deployment := setDeployment info,
                 log := w.log ++ [.Get info.PodNamespace info.PodName,
                                   .Create info.PodNamespace (setDeployment info)] }) := by
  unfold PodDataService.CreateToK8s
  simp only []
  rw [k8sGet_eq E info.PodNamespace info.PodName w
    { w with deployment := setDeployment info } rfl, hget]
  have h := k8sCreate_error E info.PodNamespace (setDeployment info) w
    (World.record { w with deployment := setDeployment info }
      (.Get info.PodNamespace info.PodName)) e rfl hcreate
  simp only [World.record] at h ⊢
  rw [h]
  simp

theorem CreateToK8s_created (E : Env) (info : PodInfo) (w : World) (g : String)
    (x : Deployment)
    (hget : (k8sGet E info.PodNamespace info.PodName w).1 = .error g)
    (hcreate : (k8sCreate E info.PodNamespace (setDeployment info) w).1 = .ok x) :
    PodDataService.CreateToK8s E info w =
      (none,
        { w with deployment := setDeployment info,
                 cluster := w.cluster ++ [setDeployment info],
                 log := w.log ++ [.Get info.PodNamespace info.PodName,
                                   .Create info.PodNamespace (setDeployment info)] }) := by
  unfold PodDataService.CreateToK8s
  simp only []
  rw [k8sGet_eq E info.PodNamespace info.PodName w
    { w with deployment := setDeployment info } rfl, hget]
  have h := (k8sCreate_ok E info.PodNamespace (setDeployment info) x w
    (World.record { w with deployment := setDeployment info }
      (.Get info.PodNamespace info.PodName)) rfl hcreate).1
  simp only [World.record] at h ⊢
  rw [h]
  simp

theorem UpdateToK8s_absent (E : Env) (info : PodInfo) (w : World) (g : String)
    (hget : (k8sGet E info.PodNamespace info.PodName w).1 = .error g) :
    PodDataService.UpdateToK8s E info w =
      (some ("Pod " ++ info.PodName ++ " pod not exist"),
        { w with deployment := setDeployment info,
                 log := w.log ++ [.Get info.PodNamespace info.PodName] }) := by
  unfold PodDataService.UpdateToK8s
  simp only []
  rw [k8sGet_eq E info.PodNamespace info.PodName w
    { w with deployment := setDeployment info } rfl, hget]
  rfl

theorem UpdateToK8s_update_fails (E : Env) (info : PodInfo) (w : World) (live : Deployment)
    (e : String)
    (hget : (k8sGet E info.PodNamespace info.PodName w).1 = .ok live)
    (hupdate : (k8sUpdate E info.PodNamespace (setDeployment info) w).1 = .error e) :
    PodDataService.UpdateToK8s E info w =
      (some e,
        { w with deployment := setDeployment info,
                 log := w.log ++ [.Get info.PodNamespace info.PodName,
                                   .Update info.PodNamespace (setDeployment info)] }) := by
  unfold PodDataService.UpdateToK8s
  simp only []
  rw [k8sGet_eq E info.PodNamespace info.PodName w
    { w with deployment := setDeployment info } rfl, hget]
  have h := k8sUpdate_error E info.PodNamespace (setDeployment info) w
    (World.record { w with deployment := setDeployment info }
      (.Get info.PodNamespace info.PodName)) e rfl hupdate
  simp only [World.record] at h ⊢
  rw [h]
  simp

theorem DeleteFromK8s_delete_fails (E : Env) (pod : Pod) (w w1 : World) (e : String)
    (hc : w1.cluster = w.cluster)
    (hdelete : (k8sDelete E pod.PodNamespace pod.PodName w).1 = some e) :
    PodDataService.DeleteFromK8s E pod w1 =
      (some e, w1.record (.Delete pod.PodNamespace pod.PodName)) := by
  unfold PodDataService.DeleteFromK8s
  rw [k8sDelete_error E pod.PodNamespace pod.PodName w w1 e hc hdelete]

theorem DeleteFromK8s_deleted (E : Env) (pod : Pod) (w w1 : World)
    (hc : w1.cluster = w.cluster)
    (hdelete : (k8sDelete E pod.PodNamespace pod.PodName w).1 = none) :
    PodDataService.DeleteFromK8s E pod w1 =
      ((PodRepository.DeletePodByID E pod.ID w).1,
        (PodRepository.DeletePodByID E pod.ID
          { w1.record (.Delete pod.PodNamespace pod.PodName) with
            cluster := w.cluster.filter (fun d =>
              !decide (d.Namespace = pod.PodNamespace ∧ d.Name = pod.PodName)) }).2) := by
  unfold PodDataService.DeleteFromK8s PodDataService.DeletePod
  rw [k8sDelete_ok E pod.PodNamespace pod.PodName w w1 hc hdelete]
  simp only []
  cases hd : (PodRepository.DeletePodByID E pod.ID w).1 with
  | some e => rw [DeletePodByID_error E pod.ID w _ e hd]
  | none => rw [DeletePodByID_ok E pod.ID w _ hd]

theorem DeletePodByID_log (E : Env) (podId : Int) (w : World) :
    (PodRepository.DeletePodByID E podId w).2.log = w.log ++ [.DeletePodByID podId] ∧
      (PodRepository.DeletePodByID E podId w).2.cluster = w.cluster := by
  unfold PodRepository.DeletePodByID
  cases E.fault (.DeletePodByID podId) with
  | some e => exact ⟨rfl, rfl⟩
  | none => exact ⟨rfl, rfl⟩

theorem findDeployment_append_new (cluster : List Deployment) (d : Deployment)
    (h : findDeployment cluster d.Namespace d.Name = none) :
    findDeployment (cluster ++ [d]) d.Namespace d.Name = some d := by
  unfold findDeployment at h ⊢
  rw [List.find?_append, h]
  simp

/-! ## Create -/

/-- C2: when the gateway's Get for (PodNamespace, PodName) reports the workload
present, CreateToK8s returns the already-exists error and its only call is that
Get (no Create); the AddPod handler makes no call but that Get (no Create, no
CreatePod), leaves the cluster and the record store as they were, and returns
that same error once the descriptor has been converted (the step before the
Get). -/
theorem AddPod_rejects_present (E : Env) (info : PodInfo) (response : Response) (w : World)
    (live : Deployment)
    (hget : (k8sGet E info.PodNamespace info.PodName w).1 = .ok live) :
    (PodDataService.CreateToK8s E info w).1 =
        some ("Pod " ++ info.PodName ++ " already exist") ∧
      newCalls w (PodDataService.CreateToK8s E info w).2 =
        [.Get info.PodNamespace info.PodName] ∧
      (PodDataService.CreateToK8s E info w).2.cluster = w.cluster ∧
      (PodDataService.CreateToK8s E info w).2.records = w.records ∧
      (PodHandler.AddPod E info response w).world.cluster = w.cluster ∧
      (PodHandler.AddPod E info response w).world.records = w.records ∧
      (PodHandler.AddPod E info response w).world.nextID = w.nextID ∧
      (∀ c ∈ newCalls w (PodHandler.AddPod E info response w).world,
        c = .Get info.PodNamespace info.PodName) ∧
      (PodHandler.AddPod E info response w).err ≠ none ∧
      (∀ podModel, E.swapToPod info Pod.zero = .ok podModel →
        (PodHandler.AddPod E info response w).err =
            some ("Pod " ++ info.PodName ++ " already exist") ∧
          newCalls w (PodHandler.AddPod E info response w).world =
            [.Get info.PodNamespace info.PodName]) := by
  have hsvc := CreateToK8s_present E info w live hget
  refine ⟨by rw [hsvc], by rw [hsvc]; exact newCalls_of_log _ _ _ rfl, by rw [hsvc],
    by rw [hsvc], ?_⟩
  unfold PodHandler.AddPod
  cases hs : E.swapToPod info Pod.zero with
  | error err => simp [newCalls_self]
  | ok podModel =>
    simp only [hsvc]
    refine ⟨trivial, trivial, trivial, ?_, by simp, ?_⟩
    · intro c hc
      rw [newCalls_of_log w _ [.Get info.PodNamespace info.PodName] rfl] at hc
      simpa using hc
    · intro _ _
      exact ⟨trivial, newCalls_of_log _ _ _ rfl⟩

/-- C2 at the scenario descriptor, live in the cluster and recorded: AddPod
returns the already-exists error after the single Get. -/
theorem AddPod_rejects_present_witness :
    (k8sGet calmEnv svcA.PodNamespace svcA.PodName svcAWorld).1 = .ok (setDeployment svcA) ∧
      (PodHandler.AddPod calmEnv svcA ⟨""⟩ svcAWorld).err =
        some ("Pod " ++ svcA.PodName ++ " already exist") ∧
      newCalls svcAWorld (PodHandler.AddPod calmEnv svcA ⟨""⟩ svcAWorld).world =
        [.Get svcA.PodNamespace svcA.PodName] :=
  ⟨rfl,
    (AddPod_rejects_present calmEnv svcA ⟨""⟩ svcAWorld (setDeployment svcA) rfl).2.2.2.2.2.2.2.2.2
      _ rfl⟩

/-- C5: when the workload is absent, the gateway's Create succeeds and the
record store's CreatePod then fails, the AddPod handler returns the store's
error, its calls are exactly Get, Create, CreatePod (no further gateway call,
no Delete), and the manifest created for (PodNamespace, PodName) is live in the
cluster afterwards; the record store holds what it held. -/
theorem AddPod_orphan_on_store_failure (E : Env) (info : PodInfo) (response : Response)
    (w : World) (podModel : Pod) (g e : String) (x : Deployment)
    (hswap : E.swapToPod info Pod.zero = .ok podModel)
    (hget : (k8sGet E info.PodNamespace info.PodName w).1 = .error g)
    (hcreate : (k8sCreate E info.PodNamespace (setDeployment info) w).1 = .ok x)
    (hstore : (PodRepository.CreatePod E podModel w).1 = .error e) :
    (PodHandler.AddPod E info response w).err = some e ∧
      (PodHandler.AddPod E info response w).response.Msg = e ∧
      newCalls w (PodHandler.AddPod E info response w).world =
        [.Get info.PodNamespace info.PodName,
         .Create info.PodNamespace (setDeployment info),
         .CreatePod podModel] ∧
      findDeployment w.cluster info.PodNamespace info.PodName = none ∧
      findDeployment (PodHandler.AddPod E info response w).world.cluster
        info.PodNamespace info.PodName = some (setDeployment info) ∧
      (PodHandler.AddPod E info response w).world.cluster =
        w.cluster ++ [setDeployment info] ∧
      (PodHandler.AddPod E info response w).world.records = w.records := by
  have habsent := (k8sCreate_ok E info.PodNamespace (setDeployment info) x w w rfl hcreate).2
  have hsvc := CreateToK8s_created E info w g x hget hcreate
  unfold PodHandler.AddPod PodDataService.AddPod
  simp only [hswap, hsvc]
  rw [CreatePod_error E podModel w _ e hstore]
  refine ⟨rfl, rfl, ?_, habsent, ?_, rfl, rfl⟩
  · apply newCalls_of_log
    simp [World.record]
  · exact findDeployment_append_new w.cluster (setDeployment info) habsent

/-- C5 at the scenario descriptor on an empty cluster, with a record store
that refuses the insert. -/
theorem AddPod_orphan_on_store_failure_witness :
    (PodHandler.AddPod (failingEnv Call.isCreatePod "insert refused") svcA ⟨""⟩
        emptyWorld).err = some "insert refused" ∧
      findDeployment
        (PodHandler.AddPod (failingEnv Call.isCreatePod "insert refused") svcA ⟨""⟩
          emptyWorld).world.cluster "default" "svc-a" = some (setDeployment svcA) :=
  have h := AddPod_orphan_on_store_failure (failingEnv Call.isCreatePod "insert refused")
    svcA ⟨""⟩ emptyWorld { svcARecord with ID := 0 } "deployments.apps \"svc-a\" not found"
    "insert refused" (setDeployment svcA) rfl rfl rfl rfl
  ⟨h.1, h.2.2.2.2.1⟩

/-- C6: cluster first.  When the gateway's mutating call fails (Create in
AddPod after a Get that reports the workload absent, Update in UpdatePod after
a Get that reports it present), the handler returns that gateway error and its
calls are exactly the Get and the failed gateway call: no call reaches the
record store (no CreatePod, no FindPodByID, no UpdatePod), whose records and
next ID are unchanged, as is the cluster. -/
theorem gateway_failure_leaves_store_untouched (E : Env) (info : PodInfo)
    (response : Response) (w : World) :
    (∀ (podModel : Pod) (g e : String),
        E.swapToPod info Pod.zero = .ok podModel →
        (k8sGet E info.PodNamespace info.PodName w).1 = .error g →
        (k8sCreate E info.PodNamespace (setDeployment info) w).1 = .error e →
        (PodHandler.AddPod E info response w).err = some e ∧
          newCalls w (PodHandler.AddPod E info response w).world =
            [.Get info.PodNamespace info.PodName,
             .Create info.PodNamespace (setDeployment info)] ∧
          (∀ c ∈ newCalls w (PodHandler.AddPod E info response w).world,
            c.isStore = false) ∧
          (PodHandler.AddPod E info response w).world.records = w.records ∧
          (PodHandler.AddPod E info response w).world.nextID = w.nextID ∧
          (PodHandler.AddPod E info response w).world.cluster = w.cluster) ∧
      (∀ (live : Deployment) (e : String),
        (k8sGet E info.PodNamespace info.PodName w).1 = .ok live →
        (k8sUpdate E info.PodNamespace (setDeployment info) w).1 = .error e →
        (PodHandler.UpdatePod E info response w).err = some e ∧
          newCalls w (PodHandler.UpdatePod E info response w).world =
            [.Get info.PodNamespace info.PodName,
             .Update info.PodNamespace (setDeployment info)] ∧
          (∀ c ∈ newCalls w (PodHandler.UpdatePod E info response w).world,
            c.isStore = false) ∧
          (PodHandler.UpdatePod E info response w).world.records = w.records ∧
          (PodHandler.UpdatePod E info response w).world.nextID = w.nextID ∧
          (PodHandler.UpdatePod E info response w).world.cluster = w.cluster) := by
  constructor
  · intro podModel g e hswap hget hcreate
    have hsvc := CreateToK8s_create_fails E info w g e hget hcreate
    have hlog : newCalls w (PodHandler.AddPod E info response w).world =
        [.Get info.PodNamespace info.PodName,
         .Create info.PodNamespace (setDeployment info)] := by
      unfold PodHandler.AddPod
      simp only [hswap, hsvc]
      exact newCalls_of_log _ _ _ rfl
    refine ⟨?_, hlog, ?_, ?_, ?_, ?_⟩
    · unfold PodHandler.AddPod
      simp only [hswap, hsvc]
    · intro c hc
      rw [hlog] at hc
      simp only [List.mem_cons, List.mem_singleton, List.not_mem_nil, or_false] at hc
      rcases hc with h | h <;> rw [h] <;> rfl
    · unfold PodHandler.AddPod
      simp only [hswap, hsvc]
    · unfold PodHandler.AddPod
      simp only [hswap, hsvc]
    · unfold PodHandler.AddPod
      simp only [hswap, hsvc]
  · intro live e hget hupdate
    have hsvc := UpdateToK8s_update_fails E info w live e hget hupdate
    have hlog : newCalls w (PodHandler.UpdatePod E info response w).world =
        [.Get info.PodNamespace info.PodName,
         .Update info.PodNamespace (setDeployment info)] := by
      unfold PodHandler.UpdatePod
      simp only [hsvc]
      exact newCalls_of_log _ _ _ rfl
    refine ⟨?_, hlog, ?_, ?_, ?_, ?_⟩
    · unfold PodHandler.UpdatePod
      simp only [hsvc]
    · intro c hc
      rw [hlog] at hc
      simp only [List.mem_cons, List.mem_singleton, List.not_mem_nil, or_false] at hc
      rcases hc with h | h <;> rw [h] <;> rfl
    · unfold PodHandler.UpdatePod
      simp only [hsvc]
    · unfold PodHandler.UpdatePod
      simp only [hsvc]
    · unfold PodHandler.UpdatePod
      simp only [hsvc]

/-- C6 at the scenario descriptor: a refused Create on the empty cluster, and a
refused Update on the cluster where the workload is live. -/
theorem gateway_failure_leaves_store_untouched_witness :
    ((PodHandler.AddPod (failingEnv Call.isCreate "create refused") svcA ⟨""⟩
          emptyWorld).err = some "create refused" ∧
        (PodHandler.AddPod (failingEnv Call.isCreate "create refused") svcA ⟨""⟩
          emptyWorld).world.records = []) ∧
      ((PodHandler.UpdatePod (failingEnv Call.isUpdate "update refused") svcA ⟨""⟩
          svcAWorld).err = some "update refused" ∧
        (PodHandler.UpdatePod (failingEnv Call.isUpdate "update refused") svcA ⟨""⟩
          svcAWorld).world.records = [svcARecord]) :=
  have h1 := (gateway_failure_leaves_store_untouched
    (failingEnv Call.isCreate "create refused") svcA ⟨""⟩ emptyWorld).1
    { svcARecord with ID := 0 } "deployments.apps \"svc-a\" not found" "create refused"
    rfl rfl rfl
  have h2 := (gateway_failure_leaves_store_untouched
    (failingEnv Call.isUpdate "update refused") svcA ⟨""⟩ svcAWorld).2
    (setDeployment svcA) "update refused" rfl rfl
  ⟨⟨h1.1, h1.2.2.2.1⟩, ⟨h2.1, h2.2.2.2.1⟩⟩

/-! ## Update -/

/-- C4: when the gateway's Get for (PodNamespace, PodName) reports the workload
absent, UpdateToK8s returns the not-found error and its only call is that Get
(no Update); the UpdatePod handler returns that error with that Get as its only
call (no FindPodByID, no UpdatePod of the store), and the cluster and the record
store are as they were. -/
theorem UpdatePod_rejects_absent (E : Env) (info : PodInfo) (response : Response)
    (w : World) (g : String)
    (hget : (k8sGet E info.PodNamespace info.PodName w).1 = .error g) :
    (PodDataService.UpdateToK8s E info w).1 =
        some ("Pod " ++ info.PodName ++ " pod not exist") ∧
      newCalls w (PodDataService.UpdateToK8s E info w).2 =
        [.Get info.PodNamespace info.PodName] ∧
      (PodHandler.UpdatePod E info response w).err =
        some ("Pod " ++ info.PodName ++ " pod not exist") ∧
      newCalls w (PodHandler.UpdatePod E info response w).world =
        [.Get info.PodNamespace info.PodName] ∧
      (PodHandler.UpdatePod E info response w).world.cluster = w.cluster ∧
      (PodHandler.UpdatePod E info response w).world.records = w.records ∧
      (PodHandler.UpdatePod E info response w).world.nextID = w.nextID := by
  have hsvc := UpdateToK8s_absent E info w g hget
  refine ⟨by rw [hsvc], by rw [hsvc]; exact newCalls_of_log _ _ _ rfl, ?_⟩
  unfold PodHandler.UpdatePod
  simp only [hsvc]
  exact ⟨trivial, newCalls_of_log _ _ _ rfl, trivial, trivial, trivial⟩

/-- C4 at the scenario descriptor on an empty cluster. -/
theorem UpdatePod_rejects_absent_witness :
    (k8sGet calmEnv svcA.PodNamespace svcA.PodName emptyWorld).1 =
        .error "deployments.apps \"svc-a\" not found" ∧
      (PodHandler.UpdatePod calmEnv svcA ⟨""⟩ emptyWorld).err =
        some ("Pod " ++ svcA.PodName ++ " pod not exist") ∧
      newCalls emptyWorld (PodHandler.UpdatePod calmEnv svcA ⟨""⟩ emptyWorld).world =
        [.Get svcA.PodNamespace svcA.PodName] :=
  have h := UpdatePod_rejects_absent calmEnv svcA ⟨""⟩ emptyWorld
    "deployments.apps \"svc-a\" not found" rfl
  ⟨rfl, h.2.2.1, h.2.2.2.1⟩

/-! ## Delete -/

/-- C3: for a record ID whose record the store finds, (a) if the gateway's
Delete for the record's (namespace, name) fails, DeletePod returns that error,
its calls are exactly FindPodByID and Delete (DeletePodByID is never called),
the cluster and the records are unchanged and FindPodByID on the same ID still
returns the record; (b) whenever DeletePodByID is called at all, the gateway's
Delete has returned success and was called before it. -/
theorem DeletePod_store_after_cluster (E : Env) (podId : Int) (response : Response)
    (w : World) (pod : Pod)
    (hfind : (PodRepository.FindPodByID E podId w).1 = .ok pod) :
    (∀ e : String, (k8sDelete E pod.PodNamespace pod.PodName w).1 = some e →
        (PodHandler.DeletePod E podId response w).err = some e ∧
          newCalls w (PodHandler.DeletePod E podId response w).world =
            [.FindPodByID podId, .Delete pod.PodNamespace pod.PodName] ∧
          (∀ i, Call.DeletePodByID i ∉
            newCalls w (PodHandler.DeletePod E podId response w).world) ∧
          (PodHandler.DeletePod E podId response w).world.records = w.records ∧
          (PodHandler.DeletePod E podId response w).world.cluster = w.cluster ∧
          (PodRepository.FindPodByID E podId
            (PodHandler.DeletePod E podId response w).world).1 = .ok pod) ∧
      (∀ i, Call.DeletePodByID i ∈
          newCalls w (PodHandler.DeletePod E podId response w).world →
        (k8sDelete E pod.PodNamespace pod.PodName w).1 = none ∧
          newCalls w (PodHandler.DeletePod E podId response w).world =
            [.FindPodByID podId, .Delete pod.PodNamespace pod.PodName,
             .DeletePodByID podId]) := by
  have hfd : PodRepository.FindPodByID E podId w = (.ok pod, w.record (.FindPodByID podId)) := by
    rw [FindPodByID_eq E podId w w rfl, hfind]
  have hid := (FindPodByID_ok_ID E podId w pod hfind).1
  have hfail : ∀ e : String, (k8sDelete E pod.PodNamespace pod.PodName w).1 = some e →
      PodHandler.DeletePod E podId response w =
        ⟨some e, response,
          (w.record (.FindPodByID podId)).record (.Delete pod.PodNamespace pod.PodName)⟩ := by
    intro e he
    unfold PodHandler.DeletePod PodDataService.FindPodByID
    simp only [hfd]
    rw [DeleteFromK8s_delete_fails E pod w (w.record (.FindPodByID podId)) e rfl he]
  constructor
  · intro e he
    rw [hfail e he]
    have hlog : newCalls w
        ((w.record (.FindPodByID podId)).record (.Delete pod.PodNamespace pod.PodName)) =
        [.FindPodByID podId, .Delete pod.PodNamespace pod.PodName] := by
      apply newCalls_of_log
      simp [World.record]
    refine ⟨rfl, hlog, ?_, rfl, rfl, ?_⟩
    · intro i hi
      rw [hlog] at hi
      simp at hi
    · show (PodRepository.FindPodByID E podId ((w.record (.FindPodByID podId)).record
        (.Delete pod.PodNamespace pod.PodName))).1 = _
      rw [FindPodByID_eq E podId w ((w.record (.FindPodByID podId)).record
        (.Delete pod.PodNamespace pod.PodName)) rfl, hfind]
  · intro i hi
    cases hd : (k8sDelete E pod.PodNamespace pod.PodName w).1 with
    | some e =>
      exfalso
      rw [hfail e hd] at hi
      have hlog : newCalls w
          ((w.record (.FindPodByID podId)).record (.Delete pod.PodNamespace pod.PodName)) =
          [.FindPodByID podId, .Delete pod.PodNamespace pod.PodName] := by
        apply newCalls_of_log
        simp [World.record]
      rw [hlog] at hi
      simp at hi
    | none =>
      refine ⟨rfl, ?_⟩
      unfold PodHandler.DeletePod PodDataService.FindPodByID
      simp only [hfd]
      rw [DeleteFromK8s_deleted E pod w (w.record (.FindPodByID podId)) rfl hd]
      have hl := (DeletePodByID_log E pod.ID
        { (w.record (.FindPodByID podId)).record (.Delete pod.PodNamespace pod.PodName) with
          cluster := w.cluster.filter (fun d =>
            !decide (d.Namespace = pod.PodNamespace ∧ d.Name = pod.PodName)) }).1
      have hw : ∀ (r : Option String) (w2 : World),
          w2.log = w.log ++ [.FindPodByID podId, .Delete pod.PodNamespace pod.PodName,
            .DeletePodByID podId] →
          newCalls w
            (match (r, w2) with
              | (some err, w3) => (⟨some err, response, w3⟩ : Outcome)
              | (none, w3) => ⟨none, response, w3⟩).world =
            [.FindPodByID podId, .Delete pod.PodNamespace pod.PodName,
              .DeletePodByID podId] := by
        intro r w2 h2
        cases r with
        | some err => exact newCalls_of_log _ _ _ h2
        | none => exact newCalls_of_log _ _ _ h2
      apply hw
      rw [hl, hid]
      simp [World.record]

/-- C3 at the recorded scenario workload with a cluster that refuses the
Delete: the error comes back and the record is still found. -/
theorem DeletePod_store_after_cluster_witness :
    (PodRepository.FindPodByID (failingEnv Call.isDelete "delete refused") 1 svcAWorld).1 =
        .ok svcARecord ∧
      (PodHandler.DeletePod (failingEnv Call.isDelete "delete refused") 1 ⟨""⟩
        svcAWorld).err = some "delete refused" ∧
      (PodRepository.FindPodByID (failingEnv Call.isDelete "delete refused") 1
        (PodHandler.DeletePod (failingEnv Call.isDelete "delete refused") 1 ⟨""⟩
          svcAWorld).world).1 = .ok svcARecord :=
  have h := (DeletePod_store_after_cluster (failingEnv Call.isDelete "delete refused") 1 ⟨""⟩
    svcAWorld svcARecord rfl).1 "delete refused" rfl
  ⟨rfl, h.1, h.2.2.2.2.2⟩

/-! ## The manifest and the retained field -/

/-- C17: for every descriptor, an empty name included, the manifest built by
`setDeployment` has the descriptor's name and namespace, replica count
`PodReplicas`, exactly one container, named `PodName` with image `PodImage`,
and selector match-labels and template labels that are both exactly
{"app-name": PodName}, so every match-label is found with the same value among
the template's labels. -/
theorem setDeployment_selects_own_template (d : PodInfo) :
    (setDeployment d).Name = d.PodName ∧
      (setDeployment d).Namespace = d.PodNamespace ∧
      (setDeployment d).Replicas = d.PodReplicas ∧
      (setDeployment d).Containers.length = 1 ∧
      (setDeployment d).Containers.map (fun c => (c.Name, c.Image)) =
        [(d.PodName, d.PodImage)] ∧
      (setDeployment d).MatchLabels = [("app-name", d.PodName)] ∧
      (setDeployment d).TemplateLabels = [("app-name", d.PodName)] ∧
      (∀ kv ∈ (setDeployment d).MatchLabels,
        lookup kv.1 (setDeployment d).TemplateLabels = some kv.2) ∧
      (setDeployment nameless).Name = "" ∧
      (setDeployment nameless).MatchLabels = (setDeployment nameless).TemplateLabels := by
  refine ⟨rfl, rfl, rfl, rfl, rfl, rfl, rfl, ?_, rfl, rfl⟩
  intro kv hkv
  have hkv1 : kv = ("app-name", d.PodName) := by
    simpa [setDeployment] using hkv
  subst hkv1
  simp [setDeployment, lookup]

theorem UpdateToK8s_updated (E : Env) (info : PodInfo) (w : World) (live x : Deployment)
    (hget : (k8sGet E info.PodNamespace info.PodName w).1 = .ok live)
    (hupdate : (k8sUpdate E info.PodNamespace (setDeployment info) w).1 = .ok x) :
    PodDataService.UpdateToK8s E info w =
      (none,
        { w with deployment := setDeployment info,
                 cluster := w.cluster.map (fun old =>
                   if old.Namespace = info.PodNamespace ∧ old.Name = (setDeployment info).Name
                   then setDeployment info else old),
                 log := w.log ++ [.Get info.PodNamespace info.PodName,
                                   .Update info.PodNamespace (setDeployment info)] }) := by
  unfold PodDataService.UpdateToK8s
  simp only []
  rw [k8sGet_eq E info.PodNamespace info.PodName w
    { w with deployment := setDeployment info } rfl, hget]
  have h := k8sUpdate_ok E info.PodNamespace (setDeployment info) x w
    (World.record { w with deployment := setDeployment info }
      (.Get info.PodNamespace info.PodName)) rfl hupdate
  simp only [World.record] at h ⊢
  rw [h]
  simp

/-- C11: the manifest submitted by CreateToK8s and UpdateToK8s is built from
the current descriptor only.  For any two values of the service's retained
`deployment` field, the same descriptor in the same cluster and record-store
state gives the same result and the same final state (the calls made, with the
manifests they carry, included) for the two service operations and for the
UpdatePod handler, and the same error, reply, cluster, record store and calls
for the AddPod handler; every Create and Update call carries `setDeployment` of
the current descriptor, which is also what the field holds afterwards. -/
theorem submitted_manifest_is_fresh (E : Env) (info : PodInfo) (response : Response)
    (w : World) (d1 d2 : Deployment) :
    PodDataService.CreateToK8s E info { w with deployment := d1 } =
        PodDataService.CreateToK8s E info { w with deployment := d2 } ∧
      PodDataService.UpdateToK8s E info { w with deployment := d1 } =
        PodDataService.UpdateToK8s E info { w with deployment := d2 } ∧
      (PodHandler.AddPod E info response { w with deployment := d1 }).err =
        (PodHandler.AddPod E info response { w with deployment := d2 }).err ∧
      (PodHandler.AddPod E info response { w with deployment := d1 }).response =
        (PodHandler.AddPod E info response { w with deployment := d2 }).response ∧
      (PodHandler.AddPod E info response { w with deployment := d1 }).world.visible =
        (PodHandler.AddPod E info response { w with deployment := d2 }).world.visible ∧
      PodHandler.UpdatePod E info response { w with deployment := d1 } =
        PodHandler.UpdatePod E info response { w with deployment := d2 } ∧
      (∀ ns d, Call.Create ns d ∈ newCalls w (PodDataService.CreateToK8s E info w).2 →
        d = setDeployment info) ∧
      (∀ ns d, Call.Update ns d ∈ newCalls w (PodDataService.UpdateToK8s E info w).2 →
        d = setDeployment info) ∧
      (PodDataService.CreateToK8s E info w).2.deployment = setDeployment info ∧
      (PodDataService.UpdateToK8s E info w).2.deployment = setDeployment info := by
  have hc : ∀ v : Deployment, PodDataService.CreateToK8s E info { w with deployment := v } =
      PodDataService.CreateToK8s E info w := fun _ => rfl
  have hu : ∀ v : Deployment, PodDataService.UpdateToK8s E info { w with deployment := v } =
      PodDataService.UpdateToK8s E info w := fun _ => rfl
  have hcreate : (∀ ns d,
      Call.Create ns d ∈ newCalls w (PodDataService.CreateToK8s E info w).2 →
        d = setDeployment info) ∧
      (PodDataService.CreateToK8s E info w).2.deployment = setDeployment info := by
    cases hg : (k8sGet E info.PodNamespace info.PodName w).1 with
    | ok live =>
      rw [CreateToK8s_present E info w live hg]
      refine ⟨?_, rfl⟩
      intro ns d hmem
      rw [newCalls_of_log w _ [.Get info.PodNamespace info.PodName] rfl] at hmem
      simp at hmem
    | error g =>
      cases hk : (k8sCreate E info.PodNamespace (setDeployment info) w).1 with
      | error e =>
        rw [CreateToK8s_create_fails E info w g e hg hk]
        refine ⟨?_, rfl⟩
        intro ns d hmem
        rw [newCalls_of_log w _ [.Get info.PodNamespace info.PodName,
          .Create info.PodNamespace (setDeployment info)] rfl] at hmem
        simp at hmem
        exact hmem.2
      | ok x =>
        rw [CreateToK8s_created E info w g x hg hk]
        refine ⟨?_, rfl⟩
        intro ns d hmem
        rw [newCalls_of_log w _ [.Get info.PodNamespace info.PodName,
          .Create info.PodNamespace (setDeployment info)] rfl] at hmem
        simp at hmem
        exact hmem.2
  have hupdate : (∀ ns d,
      Call.Update ns d ∈ newCalls w (PodDataService.UpdateToK8s E info w).2 →
        d = setDeployment info) ∧
      (PodDataService.UpdateToK8s E info w).2.deployment = setDeployment info := by
    cases hg : (k8sGet E info.PodNamespace info.PodName w).1 with
    | error g =>
      rw [UpdateToK8s_absent E info w g hg]
      refine ⟨?_, rfl⟩
      intro ns d hmem
      rw [newCalls_of_log w _ [.Get info.PodNamespace info.PodName] rfl] at hmem
      simp at hmem
    | ok live =>
      cases hk : (k8sUpdate E info.PodNamespace (setDeployment info) w).1 with
      | error e =>
        rw [UpdateToK8s_update_fails E info w live e hg hk]
        refine ⟨?_, rfl⟩
        intro ns d hmem
        rw [newCalls_of_log w _ [.Get info.PodNamespace info.PodName,
          .Update info.PodNamespace (setDeployment info)] rfl] at hmem
        simp at hmem
        exact hmem.2
      | ok x =>
        rw [UpdateToK8s_updated E info w live x hg hk]
        refine ⟨?_, rfl⟩
        intro ns d hmem
        rw [newCalls_of_log w _ [.Get info.PodNamespace info.PodName,
          .Update info.PodNamespace (setDeployment info)] rfl] at hmem
        simp at hmem
        exact hmem.2
  have hadd : ∀ v : Deployment,
      (PodHandler.AddPod E info response { w with deployment := v }).err =
          (PodHandler.AddPod E info response w).err ∧
        (PodHandler.AddPod E info response { w with deployment := v }).response =
          (PodHandler.AddPod E info response w).response ∧
        (PodHandler.AddPod E info response { w with deployment := v }).world.visible =
          (PodHandler.AddPod E info response w).world.visible := by
    intro v
    unfold PodHandler.AddPod
    rw [hc v]
    cases E.swapToPod info Pod.zero with
    | error err => exact ⟨rfl, rfl, rfl⟩
    | ok podModel => exact ⟨rfl, rfl, rfl⟩
  refine ⟨by rw [hc d1, hc d2], by rw [hu d1, hu d2], ?_, ?_, ?_, ?_, hcreate.1, hupdate.1,
    hcreate.2, hupdate.2⟩
  · rw [(hadd d1).1, (hadd d2).1]
  · rw [(hadd d1).2.1, (hadd d2).2.1]
  · rw [(hadd d1).2.2, (hadd d2).2.2]
  · unfold PodHandler.UpdatePod
    rw [hu d1, hu d2]

/-! ## Reads and the record lookup of Delete -/

theorem FindAll_snd (E : Env) (w : World) :
    (PodRepository.FindAll E w).2 = w.record .FindAll := by
  unfold PodRepository.FindAll
  cases E.fault .FindAll with
  | some e => rfl
  | none => rfl

theorem FindPodByID_snd (E : Env) (podId : Int) (w : World) :
    (PodRepository.FindPodByID E podId w).2 = w.record (.FindPodByID podId) := by
  rw [FindPodByID_eq E podId w w rfl]

theorem newCalls_record (w : World) (c : Call) : newCalls w (w.record c) = [c] :=
  newCalls_of_log w _ [c] rfl

/-- C13: when the record store's FindPodByID reports the ID as not found (or
fails otherwise), the DeletePod handler returns that error and FindPodByID is
its only call: no gateway Delete, no DeletePodByID; cluster and record store
are unchanged. -/
theorem DeletePod_unknown_record (E : Env) (podId : Int) (response : Response) (w : World)
    (e : String) (hfind : (PodRepository.FindPodByID E podId w).1 = .error e) :
    (PodHandler.DeletePod E podId response w).err = some e ∧
      (PodHandler.DeletePod E podId response w).response.Msg = e ∧
      newCalls w (PodHandler.DeletePod E podId response w).world = [.FindPodByID podId] ∧
      (∀ ns name, Call.Delete ns name ∉
        newCalls w (PodHandler.DeletePod E podId response w).world) ∧
      (∀ i, Call.DeletePodByID i ∉
        newCalls w (PodHandler.DeletePod E podId response w).world) ∧
      Untouched w (PodHandler.DeletePod E podId response w).world := by
  have hfd : PodRepository.FindPodByID E podId w =
      (.error e, w.record (.FindPodByID podId)) := by
    rw [FindPodByID_eq E podId w w rfl, hfind]
  have ho : PodHandler.DeletePod E podId response w =
      ⟨some e, { response with Msg := e }, w.record (.FindPodByID podId)⟩ := by
    unfold PodHandler.DeletePod PodDataService.FindPodByID
    rw [hfd]
  rw [ho]
  refine ⟨rfl, rfl, newCalls_record _ _, ?_, ?_, rfl, rfl, rfl⟩
  · intro ns name hmem
    rw [newCalls_record] at hmem
    simp at hmem
  · intro i hmem
    rw [newCalls_record] at hmem
    simp at hmem

/-- C13 on the empty record store: ID 7 is not found. -/
theorem DeletePod_unknown_record_witness :
    (PodRepository.FindPodByID calmEnv 7 emptyWorld).1 = .error "record not found" ∧
      (PodHandler.DeletePod calmEnv 7 ⟨""⟩ emptyWorld).err = some "record not found" ∧
      newCalls emptyWorld (PodHandler.DeletePod calmEnv 7 ⟨""⟩ emptyWorld).world =
        [.FindPodByID 7] :=
  have h := DeletePod_unknown_record calmEnv 7 ⟨""⟩ emptyWorld "record not found" rfl
  ⟨rfl, h.1, h.2.2.1⟩

/-- C15: reads pass through to the record store.  The service's FindPodByID
and FindAllPod return exactly what the repository's FindPodByID and FindAll
return; the service reads and the handlers FindPodByID and FindAllPod make that
one store call and no gateway call, and leave the cluster and the record store
as they were. -/
theorem reads_pass_through (E : Env) (podId : Int) (info : PodInfo) (rsp : List PodInfo)
    (w : World) :
    PodDataService.FindPodByID E podId w = PodRepository.FindPodByID E podId w ∧
      PodDataService.FindAllPod E w = PodRepository.FindAll E w ∧
      newCalls w (PodDataService.FindPodByID E podId w).2 = [.FindPodByID podId] ∧
      Untouched w (PodDataService.FindPodByID E podId w).2 ∧
      newCalls w (PodDataService.FindAllPod E w).2 = [.FindAll] ∧
      Untouched w (PodDataService.FindAllPod E w).2 ∧
      newCalls w (PodHandler.FindPodByID E podId info w).world = [.FindPodByID podId] ∧
      Untouched w (PodHandler.FindPodByID E podId info w).world ∧
      newCalls w (PodHandler.FindAllPod E rsp w).world = [.FindAll] ∧
      Untouched w (PodHandler.FindAllPod E rsp w).world ∧
      (∀ c ∈ newCalls w (PodHandler.FindPodByID E podId info w).world,
        c.isGateway = false) ∧
      (∀ c ∈ newCalls w (PodHandler.FindAllPod E rsp w).world, c.isGateway = false) := by
  have hs1 : (PodDataService.FindPodByID E podId w).2 = w.record (.FindPodByID podId) :=
    FindPodByID_snd E podId w
  have hs2 : (PodDataService.FindAllPod E w).2 = w.record .FindAll := FindAll_snd E w
  have hh1 : (PodHandler.FindPodByID E podId info w).world = w.record (.FindPodByID podId) := by
    unfold PodHandler.FindPodByID PodDataService.FindPodByID
    rw [FindPodByID_eq E podId w w rfl]
    cases (PodRepository.FindPodByID E podId w).1 with
    | error err => rfl
    | ok podModel =>
      simp only []
      cases E.swapToInfo podModel info with
      | error err => rfl
      | ok info1 => rfl
  have hh2 : (PodHandler.FindAllPod E rsp w).world = w.record .FindAll := by
    unfold PodHandler.FindAllPod PodDataService.FindAllPod
    rw [show PodRepository.FindAll E w = ((PodRepository.FindAll E w).1, w.record .FindAll)
      from by rw [← FindAll_snd]]
    cases (PodRepository.FindAll E w).1 with
    | error err => rfl
    | ok allPod => rfl
  rw [hs1, hs2, hh1, hh2]
  refine ⟨rfl, rfl, newCalls_record _ _, ⟨rfl, rfl, rfl⟩, newCalls_record _ _, ⟨rfl, rfl, rfl⟩,
    newCalls_record _ _, ⟨rfl, rfl, rfl⟩, newCalls_record _ _, ⟨rfl, rfl, rfl⟩, ?_, ?_⟩
  · intro c hc
    rw [newCalls_record] at hc
    rw [List.mem_singleton.mp hc]; rfl
  · intro c hc
    rw [newCalls_record] at hc
    rw [List.mem_singleton.mp hc]; rfl

/-! ## The handlers as tables of step results -/

theorem newCalls_logged (w : World) (cs : List Call) : newCalls w (w.logged cs) = cs :=
  newCalls_of_log w _ cs rfl

theorem newCalls_after (w : World) (info : PodInfo) (cs : List Call) :
    newCalls w (w.after info cs) = cs :=
  newCalls_of_log w _ cs rfl

/-- AddPod, step by step: each step's result is read in the starting state,
which no earlier step changes in what that result depends on. -/
theorem AddPod_table (E : Env) (info : PodInfo) (response : Response) (w : World) :
    PodHandler.AddPod E info response w =
      match E.swapToPod info Pod.zero with
      | .error err => ⟨some err, ⟨err⟩, w⟩
      | .ok podModel =>
        match (k8sGet E info.PodNamespace info.PodName w).1 with
        | .ok _ =>
          ⟨some ("Pod " ++ info.PodName ++ " already exist"),
            ⟨"Pod " ++ info.PodName ++ " already exist"⟩,
            w.after info [.Get info.PodNamespace info.PodName]⟩
        | .error _ =>
          match (k8sCreate E info.PodNamespace (setDeployment info) w).1 with
          | .error err =>
            ⟨some err, ⟨err⟩,
              w.after info [.Get info.PodNamespace info.PodName,
                .Create info.PodNamespace (setDeployment info)]⟩
          | .ok _ =>
            match (PodRepository.CreatePod E podModel w).1 with
            | .error err =>
              ⟨some err, ⟨err⟩,
                { w.after info [.Get info.PodNamespace info.PodName,
                    .Create info.PodNamespace (setDeployment info), .CreatePod podModel] with
                  cluster := w.cluster ++ [setDeployment info] }⟩
            | .ok _ =>
              ⟨none, ⟨addedMsg w.nextID⟩,
                { w.after info [.Get info.PodNamespace info.PodName,
                    .Create info.PodNamespace (setDeployment info), .CreatePod podModel] with
                  cluster := w.cluster ++ [setDeployment info],
                  records := w.records ++ [{ podModel with ID := w.nextID }],
                  nextID := w.nextID + 1 }⟩ := by
  unfold PodHandler.AddPod
  cases hs : E.swapToPod info Pod.zero with
  | error err => rfl
  | ok podModel =>
    simp only []
    cases hg : (k8sGet E info.PodNamespace info.PodName w).1 with
    | ok live =>
      rw [CreateToK8s_present E info w live hg]
      rfl
    | error g =>
      simp only []
      cases hk : (k8sCreate E info.PodNamespace (setDeployment info) w).1 with
      | error e =>
        rw [CreateToK8s_create_fails E info w g e hg hk]
        rfl
      | ok x =>
        rw [CreateToK8s_created E info w g x hg hk]
        simp only [PodDataService.AddPod]
        cases hc : (PodRepository.CreatePod E podModel w).1 with
        | error e =>
          rw [CreatePod_error E podModel w _ e hc]
          simp [World.after, World.record]
        | ok id =>
          rw [CreatePod_ok E podModel w _ id hc]
          simp [World.after, World.record, addedMsg]

/-- UpdatePod, step by step. -/
theorem UpdatePod_table (E : Env) (info : PodInfo) (response : Response) (w : World) :
    PodHandler.UpdatePod E info response w =
      match (k8sGet E info.PodNamespace info.PodName w).1 with
      | .error _ =>
        ⟨some ("Pod " ++ info.PodName ++ " pod not exist"), response,
          w.after info [.Get info.PodNamespace info.PodName]⟩
      | .ok _ =>
        match (k8sUpdate E info.PodNamespace (setDeployment info) w).1 with
        | .error err =>
          ⟨some err, response,
            w.after info [.Get info.PodNamespace info.PodName,
              .Update info.PodNamespace (setDeployment info)]⟩
        | .ok _ =>
          match (PodRepository.FindPodByID E info.Id w).1 with
          | .error err =>
            ⟨some err, response,
              { w.after info [.Get info.PodNamespace info.PodName,
                  .Update info.PodNamespace (setDeployment info), .FindPodByID info.Id] with
                cluster := replaceLive info w.cluster }⟩
          | .ok podModel =>
            match E.swapToPod info podModel with
            | .error err =>
              ⟨some err, response,
                { w.after info [.Get info.PodNamespace info.PodName,
                    .Update info.PodNamespace (setDeployment info), .FindPodByID info.Id] with
                  cluster := replaceLive info w.cluster }⟩
            | .ok podModel1 =>
              match (PodRepository.UpdatePod E podModel1 w).1 with
              | some err =>
                ⟨some err, response,
                  { w.after info [.Get info.PodNamespace info.PodName,
                      .Update info.PodNamespace (setDeployment info), .FindPodByID info.Id,
                      .UpdatePod podModel1] with
                    cluster := replaceLive info w.cluster }⟩
              | none =>
                ⟨none, response,
                  { w.after info [.Get info.PodNamespace info.PodName,
                      .Update info.PodNamespace (setDeployment info), .FindPodByID info.Id,
                      .UpdatePod podModel1] with
                    cluster := replaceLive info w.cluster,
                    records := w.records.map (fun r =>
                      if r.ID = podModel1.ID then podModel1 else r) }⟩ := by
  unfold PodHandler.UpdatePod
  cases hg : (k8sGet E info.PodNamespace info.PodName w).1 with
  | error g =>
    rw [UpdateToK8s_absent E info w g hg]
    rfl
  | ok live =>
    simp only []
    cases hk : (k8sUpdate E info.PodNamespace (setDeployment info) w).1 with
    | error e =>
      rw [UpdateToK8s_update_fails E info w live e hg hk]
      rfl
    | ok x =>
      rw [UpdateToK8s_updated E info w live x hg hk]
      simp only [PodDataService.FindPodByID, PodDataService.UpdatePod]
      have hfe := FindPodByID_eq E info.Id w
        ({ w.after info [.Get info.PodNamespace info.PodName,
            .Update info.PodNamespace (setDeployment info)] with
          cluster := replaceLive info w.cluster }) rfl
      simp only [World.after, replaceLive] at hfe
      rw [hfe]
      cases hf : (PodRepository.FindPodByID E info.Id w).1 with
      | error e => simp [World.after, World.record, replaceLive]
      | ok podModel =>
        simp only []
        cases hsw : E.swapToPod info podModel with
        | error e => simp [World.after, World.record, replaceLive]
        | ok podModel1 =>
          simp only []
          cases hu : (PodRepository.UpdatePod E podModel1 w).1 with
          | some e =>
            rw [UpdatePod_error E podModel1 w _ e hu]
            simp [World.after, World.record, replaceLive]
          | none =>
            rw [UpdatePod_ok E podModel1 w _ hu]
            simp [World.after, World.record, replaceLive]

/-- DeletePod, step by step. -/
theorem DeletePod_table (E : Env) (podId : Int) (response : Response) (w : World) :
    PodHandler.DeletePod E podId response w =
      match (PodRepository.FindPodByID E podId w).1 with
      | .error err => ⟨some err, ⟨err⟩, w.logged [.FindPodByID podId]⟩
      | .ok podModel =>
        match (k8sDelete E podModel.PodNamespace podModel.PodName w).1 with
        | some err =>
          ⟨some err, response,
            w.logged [.FindPodByID podId, .Delete podModel.PodNamespace podModel.PodName]⟩
        | none =>
          match (PodRepository.DeletePodByID E podModel.ID w).1 with
          | some err =>
            ⟨some err, response,
              { w.logged [.FindPodByID podId,
                  .Delete podModel.PodNamespace podModel.PodName,
                  .DeletePodByID podModel.ID] with
                cluster := removeLive podModel.PodNamespace podModel.PodName w.cluster }⟩
          | none =>
            ⟨none, response,
              { w.logged [.FindPodByID podId,
                  .Delete podModel.PodNamespace podModel.PodName,
                  .DeletePodByID podModel.ID] with
                cluster := removeLive podModel.PodNamespace podModel.PodName w.cluster,
                records := w.records.filter (fun r => !decide (r.ID = podModel.ID)) }⟩ := by
  unfold PodHandler.DeletePod PodDataService.FindPodByID
  rw [FindPodByID_eq E podId w w rfl]
  cases hf : (PodRepository.FindPodByID E podId w).1 with
  | error e => rfl
  | ok podModel =>
    simp only []
    cases hd : (k8sDelete E podModel.PodNamespace podModel.PodName w).1 with
    | some e =>
      rw [DeleteFromK8s_delete_fails E podModel w (w.record (.FindPodByID podId)) e rfl hd]
      simp [World.logged, World.record]
    | none =>
      rw [DeleteFromK8s_deleted E podModel w (w.record (.FindPodByID podId)) rfl hd]
      cases hr : (PodRepository.DeletePodByID E podModel.ID w).1 with
      | some e =>
        rw [DeletePodByID_error E podModel.ID w _ e hr]
        simp [World.logged, World.record, removeLive]
      | none =>
        rw [DeletePodByID_ok E podModel.ID w _ hr]
        simp [World.logged, World.record, removeLive]

/-! ## Error propagation -/

/-- C12 as stated fails: when the gateway's Get itself fails ("etcd timeout")
on the empty cluster, AddPod of the scenario descriptor takes the failure for
absence, goes on to Create and CreatePod, and returns a nil error: the error of
the Get is neither returned nor does it stop the later steps. -/
theorem failed_Get_is_swallowed :
    (k8sGet (failingEnv Call.isGet "etcd timeout") svcA.PodNamespace svcA.PodName
        emptyWorld).1 = .error "etcd timeout" ∧
      ¬ GetReportsAbsent (failingEnv Call.isGet "etcd timeout") svcA.PodNamespace
        svcA.PodName emptyWorld ∧
      (PodHandler.AddPod (failingEnv Call.isGet "etcd timeout") svcA ⟨""⟩ emptyWorld).err =
        none ∧
      newCalls emptyWorld
          (PodHandler.AddPod (failingEnv Call.isGet "etcd timeout") svcA ⟨""⟩
            emptyWorld).world =
        [.Get "default" "svc-a", .Create "default" (setDeployment svcA),
         .CreatePod { svcARecord with ID := 0 }] ∧
      ¬ AddPodSwallowsNothing (failingEnv Call.isGet "etcd timeout") svcA ⟨""⟩ emptyWorld := by
  have herr : (PodHandler.AddPod (failingEnv Call.isGet "etcd timeout") svcA ⟨""⟩
      emptyWorld).err = none := rfl
  refine ⟨rfl, ?_, herr, rfl, ?_⟩
  · intro h
    have h1 : (failingEnv Call.isGet "etcd timeout").fault
        (.Get svcA.PodNamespace svcA.PodName) = some "etcd timeout" := rfl
    have h2 := h.1
    rw [h1] at h2
    exact absurd h2 (by simp)
  · intro h
    exact (h.2 "etcd timeout" rfl).1 herr

/-- C12 amended: each of AddPod, UpdatePod and DeletePod returns a nil error
exactly when every step succeeded, where the Get step of AddPod counts as
succeeded whenever Get returns an error of any kind (the workload reported
absent, or the Get call itself failing, which CreateToK8s does not tell apart)
(AddPod: conversion, Get returning an error, Create, record insert; UpdatePod:
Get reporting present, Update, FindPodByID, conversion, record Update;
DeletePod: FindPodByID, Delete, record delete); and when any of these steps
fails the handler returns a non-nil error (the error of the failed call or
conversion) and its calls end with the failed step: no later step is
executed. -/
theorem no_error_swallowed (E : Env) (info : PodInfo) (podId : Int) (response : Response)
    (w : World) :
    (((PodHandler.AddPod E info response w).err = none ↔
        ∃ podModel, E.swapToPod info Pod.zero = .ok podModel ∧
          (∃ g, (k8sGet E info.PodNamespace info.PodName w).1 = .error g) ∧
          (∃ x, (k8sCreate E info.PodNamespace (setDeployment info) w).1 = .ok x) ∧
          (∃ id, (PodRepository.CreatePod E podModel w).1 = .ok id)) ∧
      (∀ e, E.swapToPod info Pod.zero = .error e →
        (PodHandler.AddPod E info response w).err = some e ∧
          newCalls w (PodHandler.AddPod E info response w).world = []) ∧
      (∀ podModel live, E.swapToPod info Pod.zero = .ok podModel →
        (k8sGet E info.PodNamespace info.PodName w).1 = .ok live →
        (PodHandler.AddPod E info response w).err =
            some ("Pod " ++ info.PodName ++ " already exist") ∧
          newCalls w (PodHandler.AddPod E info response w).world =
            [.Get info.PodNamespace info.PodName]) ∧
      (∀ podModel g e, E.swapToPod info Pod.zero = .ok podModel →
        (k8sGet E info.PodNamespace info.PodName w).1 = .error g →
        (k8sCreate E info.PodNamespace (setDeployment info) w).1 = .error e →
        (PodHandler.AddPod E info response w).err = some e ∧
          newCalls w (PodHandler.AddPod E info response w).world =
            [.Get info.PodNamespace info.PodName,
             .Create info.PodNamespace (setDeployment info)]) ∧
      (∀ podModel g x e, E.swapToPod info Pod.zero = .ok podModel →
        (k8sGet E info.PodNamespace info.PodName w).1 = .error g →
        (k8sCreate E info.PodNamespace (setDeployment info) w).1 = .ok x →
        (PodRepository.CreatePod E podModel w).1 = .error e →
        (PodHandler.AddPod E info response w).err = some e ∧
          newCalls w (PodHandler.AddPod E info response w).world =
            [.Get info.PodNamespace info.PodName,
             .Create info.PodNamespace (setDeployment info), .CreatePod podModel])) ∧
    (((PodHandler.UpdatePod E info response w).err = none ↔
        (∃ live, (k8sGet E info.PodNamespace info.PodName w).1 = .ok live) ∧
          (∃ x, (k8sUpdate E info.PodNamespace (setDeployment info) w).1 = .ok x) ∧
          ∃ podModel podModel1, (PodRepository.FindPodByID E info.Id w).1 = .ok podModel ∧
            E.swapToPod info podModel = .ok podModel1 ∧
            (PodRepository.UpdatePod E podModel1 w).1 = none) ∧
      (∀ g, (k8sGet E info.PodNamespace info.PodName w).1 = .error g →
        (PodHandler.UpdatePod E info response w).err =
            some ("Pod " ++ info.PodName ++ " pod not exist") ∧
          newCalls w (PodHandler.UpdatePod E info response w).world =
            [.Get info.PodNamespace info.PodName]) ∧
      (∀ live e, (k8sGet E info.PodNamespace info.PodName w).1 = .ok live →
        (k8sUpdate E info.PodNamespace (setDeployment info) w).1 = .error e →
        (PodHandler.UpdatePod E info response w).err = some e ∧
          newCalls w (PodHandler.UpdatePod E info response w).world =
            [.Get info.PodNamespace info.PodName,
             .Update info.PodNamespace (setDeployment info)]) ∧
      (∀ live x e, (k8sGet E info.PodNamespace info.PodName w).1 = .ok live →
        (k8sUpdate E info.PodNamespace (setDeployment info) w).1 = .ok x →
        (PodRepository.FindPodByID E info.Id w).1 = .error e →
        (PodHandler.UpdatePod E info response w).err = some e ∧
          newCalls w (PodHandler.UpdatePod E info response w).world =
            [.Get info.PodNamespace info.PodName,
             .Update info.PodNamespace (setDeployment info), .FindPodByID info.Id]) ∧
      (∀ live x podModel e, (k8sGet E info.PodNamespace info.PodName w).1 = .ok live →
        (k8sUpdate E info.PodNamespace (setDeployment info) w).1 = .ok x →
        (PodRepository.FindPodByID E info.Id w).1 = .ok podModel →
        E.swapToPod info podModel = .error e →
        (PodHandler.UpdatePod E info response w).err = some e ∧
          newCalls w (PodHandler.UpdatePod E info response w).world =
            [.Get info.PodNamespace info.PodName,
             .Update info.PodNamespace (setDeployment info), .FindPodByID info.Id]) ∧
      (∀ live x podModel podModel1 e,
        (k8sGet E info.PodNamespace info.PodName w).1 = .ok live →
        (k8sUpdate E info.PodNamespace (setDeployment info) w).1 = .ok x →
        (PodRepository.FindPodByID E info.Id w).1 = .ok podModel →
        E.swapToPod info podModel = .ok podModel1 →
        (PodRepository.UpdatePod E podModel1 w).1 = some e →
        (PodHandler.UpdatePod E info response w).err = some e ∧
          newCalls w (PodHandler.UpdatePod E info response w).world =
            [.Get info.PodNamespace info.PodName,
             .Update info.PodNamespace (setDeployment info), .FindPodByID info.Id,
             .UpdatePod podModel1])) ∧
    (((PodHandler.DeletePod E podId response w).err = none ↔
        ∃ podModel, (PodRepository.FindPodByID E podId w).1 = .ok podModel ∧
          (k8sDelete E podModel.PodNamespace podModel.PodName w).1 = none ∧
          (PodRepository.DeletePodByID E podModel.ID w).1 = none) ∧
      (∀ e, (PodRepository.FindPodByID E podId w).1 = .error e →
        (PodHandler.DeletePod E podId response w).err = some e ∧
          newCalls w (PodHandler.DeletePod E podId response w).world =
            [.FindPodByID podId]) ∧
      (∀ podModel e, (PodRepository.FindPodByID E podId w).1 = .ok podModel →
        (k8sDelete E podModel.PodNamespace podModel.PodName w).1 = some e →
        (PodHandler.DeletePod E podId response w).err = some e ∧
          newCalls w (PodHandler.DeletePod E podId response w).world =
            [.FindPodByID podId, .Delete podModel.PodNamespace podModel.PodName]) ∧
      (∀ podModel e, (PodRepository.FindPodByID E podId w).1 = .ok podModel →
        (k8sDelete E podModel.PodNamespace podModel.PodName w).1 = none →
        (PodRepository.DeletePodByID E podModel.ID w).1 = some e →
        (PodHandler.DeletePod E podId response w).err = some e ∧
          newCalls w (PodHandler.DeletePod E podId response w).world =
            [.FindPodByID podId, .Delete podModel.PodNamespace podModel.PodName,
             .DeletePodByID podModel.ID])) := by
  refine ⟨?_, ?_, ?_⟩
  · rw [AddPod_table]
    refine ⟨?_, ?_, ?_, ?_, ?_⟩
    · cases hs : E.swapToPod info Pod.zero with
      | error err => simp
      | ok podModel =>
        cases hg : (k8sGet E info.PodNamespace info.PodName w).1 with
        | ok live => simp
        | error g =>
          cases hk : (k8sCreate E info.PodNamespace (setDeployment info) w).1 with
          | error e => simp
          | ok x =>
            cases hc : (PodRepository.CreatePod E podModel w).1 with
            | error e => simp [hc]
            | ok id => simp [hc]
    · intro e hs
      simp only [hs]
      exact ⟨trivial, newCalls_self w⟩
    · intro podModel live hs hg
      simp only [hs, hg]
      exact ⟨trivial, newCalls_after _ _ _⟩
    · intro podModel g e hs hg hk
      simp only [hs, hg, hk]
      exact ⟨trivial, newCalls_after _ _ _⟩
    · intro podModel g x e hs hg hk hc
      simp only [hs, hg, hk, hc]
      exact ⟨trivial, newCalls_of_log _ _ _ rfl⟩
  · rw [UpdatePod_table]
    refine ⟨?_, ?_, ?_, ?_, ?_, ?_⟩
    · cases hg : (k8sGet E info.PodNamespace info.PodName w).1 with
      | error g => simp
      | ok live =>
        cases hk : (k8sUpdate E info.PodNamespace (setDeployment info) w).1 with
        | error e => simp
        | ok x =>
          cases hf : (PodRepository.FindPodByID E info.Id w).1 with
          | error e => simp
          | ok podModel =>
            cases hs : E.swapToPod info podModel with
            | error e => simp [hs]
            | ok podModel1 =>
              cases hu : (PodRepository.UpdatePod E podModel1 w).1 with
              | some e => simp [hs, hu]
              | none => simp [hs, hu]
    · intro g hg
      simp only [hg]
      exact ⟨trivial, newCalls_after _ _ _⟩
    · intro live e hg hk
      simp only [hg, hk]
      exact ⟨trivial, newCalls_after _ _ _⟩
    · intro live x e hg hk hf
      simp only [hg, hk, hf]
      exact ⟨trivial, newCalls_of_log _ _ _ rfl⟩
    · intro live x podModel e hg hk hf hs
      simp only [hg, hk, hf, hs]
      exact ⟨trivial, newCalls_of_log _ _ _ rfl⟩
    · intro live x podModel podModel1 e hg hk hf hs hu
      simp only [hg, hk, hf, hs, hu]
      exact ⟨trivial, newCalls_of_log _ _ _ rfl⟩
  · rw [DeletePod_table]
    refine ⟨?_, ?_, ?_, ?_⟩
    · cases hf : (PodRepository.FindPodByID E podId w).1 with
      | error e => simp
      | ok podModel =>
        cases hd : (k8sDelete E podModel.PodNamespace podModel.PodName w).1 with
        | some e => simp [hd]
        | none =>
          cases hr : (PodRepository.DeletePodByID E podModel.ID w).1 with
          | some e => simp [hd, hr]
          | none => simp [hd, hr]
    · intro e hf
      simp only [hf]
      exact ⟨trivial, newCalls_logged _ _⟩
    · intro podModel e hf hd
      simp only [hf, hd]
      exact ⟨trivial, newCalls_logged _ _⟩
    · intro podModel e hf hd hr
      simp only [hf, hd, hr]
      exact ⟨trivial, newCalls_of_log _ _ _ rfl⟩

/-- The amended C12 at the scenario descriptor: on the empty cluster every step of AddPod
succeeds and the error is nil; with a record store that refuses the insert the
refusal comes back after Get, Create and CreatePod. -/
theorem no_error_swallowed_witness :
    (PodHandler.AddPod calmEnv svcA ⟨""⟩ emptyWorld).err = none ∧
      (PodHandler.AddPod (failingEnv Call.isCreatePod "insert refused") svcA ⟨""⟩
        emptyWorld).err = some "insert refused" :=
  ⟨(no_error_swallowed calmEnv svcA 1 ⟨""⟩ emptyWorld).1.1.mpr
      ⟨_, rfl, ⟨_, rfl⟩, ⟨_, rfl⟩, ⟨_, rfl⟩⟩,
    ((no_error_swallowed (failingEnv Call.isCreatePod "insert refused") svcA 1 ⟨""⟩
      emptyWorld).1.2.2.2.2 _ _ _ _ rfl rfl rfl rfl).1⟩

/-! ## No compensation -/

theorem k8sGet_ok_find (E : Env) (ns name : String) (w : World) (live : Deployment)
    (h : (k8sGet E ns name w).1 = .ok live) : findDeployment w.cluster ns name = some live := by
  unfold k8sGet at h
  cases hf : E.fault (.Get ns name) with
  | some e => simp_all
  | none =>
    cases hd : findDeployment w.cluster ns name with
    | none => simp_all
    | some d => simp_all

theorem findDeployment_replaceLive (info : PodInfo) (cluster : List Deployment)
    (live : Deployment)
    (h : findDeployment cluster info.PodNamespace info.PodName = some live) :
    findDeployment (replaceLive info cluster) info.PodNamespace info.PodName =
      some (setDeployment info) := by
  unfold findDeployment replaceLive at *
  have hname : (setDeployment info).Name = info.PodName := rfl
  have hns : (setDeployment info).Namespace = info.PodNamespace := rfl
  induction cluster with
  | nil => simp at h
  | cons a t ih =>
    by_cases ha : a.Namespace = info.PodNamespace ∧ a.Name = info.PodName
    · simp [List.find?, ha, hname, hns]
    · have h2 : List.find? (fun d => decide (d.Namespace = info.PodNamespace ∧
          d.Name = info.PodName)) t = some live := by
        simpa [List.find?, ha] using h
      have ih2 := ih h2
      simp only [hname] at ih2 ⊢
      simp only [List.map_cons, if_neg ha, List.find?, ha, decide_False, if_false]
      exact ih2

theorem findDeployment_removeLive (ns name : String) (cluster : List Deployment) :
    findDeployment (removeLive ns name cluster) ns name = none := by
  unfold findDeployment removeLive
  rw [List.find?_eq_none]
  intro d hd hmatch
  have := (List.mem_filter.mp hd).2
  rw [hmatch] at this
  exact absurd this (by decide)

theorem FindPodByID_fst_congr (E : Env) (podId : Int) (w w1 : World)
    (h : w1.records = w.records) :
    (PodRepository.FindPodByID E podId w1).1 = (PodRepository.FindPodByID E podId w).1 := by
  rw [FindPodByID_eq E podId w w1 h]

/-- C14: no compensation after a record-store failure.  (a) When the gateway's
Update has succeeded and the record lookup fails, or the lookup and the
conversion succeed and the record Update fails, UpdatePod returns that error,
its calls end with the failed store call (no further gateway call), the cluster
holds the new manifest and the records are what they were.  (b) When the
gateway's Delete has succeeded and the record delete fails, DeletePod returns
that error with no further gateway call, the workload is no longer live, and the
record is still found under its ID. -/
theorem no_compensation_after_store_failure (E : Env) (info : PodInfo) (podId : Int)
    (response : Response) (w : World) :
    (∀ live x e, (k8sGet E info.PodNamespace info.PodName w).1 = .ok live →
        (k8sUpdate E info.PodNamespace (setDeployment info) w).1 = .ok x →
        (PodRepository.FindPodByID E info.Id w).1 = .error e →
        (PodHandler.UpdatePod E info response w).err = some e ∧
          newCalls w (PodHandler.UpdatePod E info response w).world =
            [.Get info.PodNamespace info.PodName,
             .Update info.PodNamespace (setDeployment info), .FindPodByID info.Id] ∧
          findDeployment (PodHandler.UpdatePod E info response w).world.cluster
            info.PodNamespace info.PodName = some (setDeployment info) ∧
          (PodHandler.UpdatePod E info response w).world.records = w.records) ∧
      (∀ live x podModel podModel1 e,
        (k8sGet E info.PodNamespace info.PodName w).1 = .ok live →
        (k8sUpdate E info.PodNamespace (setDeployment info) w).1 = .ok x →
        (PodRepository.FindPodByID E info.Id w).1 = .ok podModel →
        E.swapToPod info podModel = .ok podModel1 →
        (PodRepository.UpdatePod E podModel1 w).1 = some e →
        (PodHandler.UpdatePod E info response w).err = some e ∧
          newCalls w (PodHandler.UpdatePod E info response w).world =
            [.Get info.PodNamespace info.PodName,
             .Update info.PodNamespace (setDeployment info), .FindPodByID info.Id,
             .UpdatePod podModel1] ∧
          findDeployment (PodHandler.UpdatePod E info response w).world.cluster
            info.PodNamespace info.PodName = some (setDeployment info) ∧
          (PodHandler.UpdatePod E info response w).world.records = w.records ∧
          (PodRepository.FindPodByID E info.Id
            (PodHandler.UpdatePod E info response w).world).1 = .ok podModel) ∧
      (∀ podModel e, (PodRepository.FindPodByID E podId w).1 = .ok podModel →
        (k8sDelete E podModel.PodNamespace podModel.PodName w).1 = none →
        (PodRepository.DeletePodByID E podModel.ID w).1 = some e →
        (PodHandler.DeletePod E podId response w).err = some e ∧
          newCalls w (PodHandler.DeletePod E podId response w).world =
            [.FindPodByID podId, .Delete podModel.PodNamespace podModel.PodName,
             .DeletePodByID podId] ∧
          findDeployment (PodHandler.DeletePod E podId response w).world.cluster
            podModel.PodNamespace podModel.PodName = none ∧
          (PodHandler.DeletePod E podId response w).world.records = w.records ∧
          (PodRepository.FindPodByID E podId
            (PodHandler.DeletePod E podId response w).world).1 = .ok podModel) := by
  refine ⟨?_, ?_, ?_⟩
  · intro live x e hg hk hf
    have hlive := findDeployment_replaceLive info w.cluster live
      (k8sGet_ok_find E _ _ w live hg)
    rw [UpdatePod_table]
    simp only [hg, hk, hf]
    exact ⟨trivial, newCalls_of_log _ _ _ rfl, hlive, rfl⟩
  · intro live x podModel podModel1 e hg hk hf hs hu
    have hlive := findDeployment_replaceLive info w.cluster live
      (k8sGet_ok_find E _ _ w live hg)
    rw [UpdatePod_table]
    simp only [hg, hk, hf, hs, hu]
    refine ⟨trivial, newCalls_of_log _ _ _ rfl, hlive, rfl, ?_⟩
    exact (FindPodByID_fst_congr E info.Id w _ (by rfl)).trans hf
  · intro podModel e hf hd hr
    have hid := (FindPodByID_ok_ID E podId w podModel hf).1
    rw [DeletePod_table]
    simp only [hf, hd, hr]
    refine ⟨trivial, ?_, findDeployment_removeLive _ _ _, rfl, ?_⟩
    · rw [hid]; exact newCalls_of_log _ _ _ rfl
    · exact (FindPodByID_fst_congr E podId w _ (by rfl)).trans hf

/-- C14 at the recorded scenario workload: a record store that refuses the
Update leaves the scaled manifest live and the record at two replicas; one that
refuses the delete leaves no live workload and the record in place. -/
theorem no_compensation_after_store_failure_witness :
    ((PodHandler.UpdatePod (failingEnv Call.isUpdatePod "update refused") svcAScaled ⟨""⟩
          svcAWorld).err = some "update refused" ∧
        (PodHandler.UpdatePod (failingEnv Call.isUpdatePod "update refused") svcAScaled ⟨""⟩
          svcAWorld).world.records = [svcARecord]) ∧
      ((PodHandler.DeletePod (failingEnv Call.isDeletePodByID "delete refused") 1 ⟨""⟩
          svcAWorld).err = some "delete refused" ∧
        findDeployment (PodHandler.DeletePod (failingEnv Call.isDeletePodByID "delete refused")
          1 ⟨""⟩ svcAWorld).world.cluster "default" "svc-a" = none) :=
  have h1 := (no_compensation_after_store_failure
    (failingEnv Call.isUpdatePod "update refused") svcAScaled 1 ⟨""⟩ svcAWorld).2.1
    (setDeployment svcA) (setDeployment svcAScaled) svcARecord
    { svcARecord with PodReplicas := 3 } "update refused" rfl rfl rfl rfl rfl
  have h2 := (no_compensation_after_store_failure
    (failingEnv Call.isDeletePodByID "delete refused") svcAScaled 1 ⟨""⟩ svcAWorld).2.2
    svcARecord "delete refused" rfl rfl rfl
  ⟨⟨h1.1, h1.2.2.2.1⟩, ⟨h2.1, h2.2.2.1⟩⟩

/-! ## Sequences of calls where nothing fails -/

theorem calm_Get (ns name : String) (w : World) :
    (k8sGet calmEnv ns name w).1 =
      match findDeployment w.cluster ns name with
      | some d => .ok d
      | none => .error ("deployments.apps \"" ++ name ++ "\" not found") := by
  unfold k8sGet
  cases findDeployment w.cluster ns name with
  | some d => rfl
  | none => rfl

/-- AddPod where nothing fails: a live name is rejected and nothing changes; an
absent one becomes live and recorded under the next free ID. -/
theorem AddPod_calm (info : PodInfo) (response : Response) (w : World) :
    (findDeployment w.cluster info.PodNamespace info.PodName = none →
        (PodHandler.AddPod calmEnv info response w).world.cluster =
            w.cluster ++ [setDeployment info] ∧
          (∃ r : Pod, r.ID = w.nextID ∧ r.identity = (info.PodNamespace, info.PodName) ∧
            (PodHandler.AddPod calmEnv info response w).world.records = w.records ++ [r]) ∧
          (PodHandler.AddPod calmEnv info response w).world.nextID = w.nextID + 1) ∧
      (∀ d, findDeployment w.cluster info.PodNamespace info.PodName = some d →
        Untouched w (PodHandler.AddPod calmEnv info response w).world) := by
  have hsw : calmEnv.swapToPod info Pod.zero = copyToPod info Pod.zero := rfl
  constructor
  · intro habs
    have hg := calm_Get info.PodNamespace info.PodName w
    rw [habs] at hg
    have hk : (k8sCreate calmEnv info.PodNamespace (setDeployment info) w).1 =
        .ok (setDeployment info) := by
      unfold k8sCreate
      have : findDeployment w.cluster info.PodNamespace (setDeployment info).Name = none := habs
      rw [this]; rfl
    have hc : ∀ p : Pod, (PodRepository.CreatePod calmEnv p w).1 = .ok w.nextID := fun _ => rfl
    rw [AddPod_table, hsw]
    simp only [copyToPod, hg, hk, hc]
    exact ⟨(by first | rfl | trivial), ⟨_, by rfl, by rfl, rfl⟩, (by first | rfl | trivial)⟩
  · intro d hd
    have hg := calm_Get info.PodNamespace info.PodName w
    rw [hd] at hg
    rw [AddPod_table, hsw]
    simp only [copyToPod, hg]
    exact ⟨(by first | rfl | trivial), (by first | rfl | trivial), (by first | rfl | trivial)⟩

theorem calm_Find (podId : Int) (w : World) :
    (PodRepository.FindPodByID calmEnv podId w).1 =
      match w.records.find? (fun r => decide (r.ID = podId)) with
      | some r => .ok r
      | none => .error "record not found" := by
  unfold PodRepository.FindPodByID
  cases List.find? (fun r => decide (r.ID = podId)) w.records with
  | some r => rfl
  | none => rfl

/-- UpdatePod where nothing fails: an absent name is rejected and nothing
changes; a live one gets the new manifest, and the record stored under the
descriptor's Id, if any, is overwritten with the descriptor's fields. -/
theorem UpdatePod_calm (info : PodInfo) (response : Response) (w : World) :
    (findDeployment w.cluster info.PodNamespace info.PodName = none →
        Untouched w (PodHandler.UpdatePod calmEnv info response w).world) ∧
      (∀ d, findDeployment w.cluster info.PodNamespace info.PodName = some d →
        (PodHandler.UpdatePod calmEnv info response w).world.cluster =
            replaceLive info w.cluster ∧
          (PodHandler.UpdatePod calmEnv info response w).world.nextID = w.nextID ∧
          (w.records.find? (fun r => decide (r.ID = info.Id)) = none →
            (PodHandler.UpdatePod calmEnv info response w).world.records = w.records) ∧
          (∀ r, w.records.find? (fun r => decide (r.ID = info.Id)) = some r →
            ∃ pm : Pod, pm.ID = info.Id ∧ pm.identity = (info.PodNamespace, info.PodName) ∧
              (PodHandler.UpdatePod calmEnv info response w).world.records =
                w.records.map (fun r => if r.ID = pm.ID then pm else r))) := by
  have hg := calm_Get info.PodNamespace info.PodName w
  have hf := calm_Find info.Id w
  constructor
  · intro habs
    rw [habs] at hg
    rw [UpdatePod_table]
    simp only [hg]
    exact ⟨(by first | rfl | trivial), (by first | rfl | trivial), (by first | rfl | trivial)⟩
  · intro d hd
    rw [hd] at hg
    have hk : (k8sUpdate calmEnv info.PodNamespace (setDeployment info) w).1 =
        .ok (setDeployment info) := by
      unfold k8sUpdate
      have : findDeployment w.cluster info.PodNamespace (setDeployment info).Name = some d := hd
      rw [this]; rfl
    have hsw : ∀ r : Pod, calmEnv.swapToPod info r = copyToPod info r := fun _ => rfl
    have hu : ∀ p : Pod, (PodRepository.UpdatePod calmEnv p w).1 = none := fun _ => rfl
    rw [UpdatePod_table]
    simp only [hg, hk]
    cases hr : List.find? (fun r => decide (r.ID = info.Id)) w.records with
    | none =>
      rw [hr] at hf
      simp only [hf]
      exact ⟨(by first | rfl | trivial), (by first | rfl | trivial), fun _ => (by first | rfl | trivial), fun r h => by simp at h⟩
    | some r0 =>
      rw [hr] at hf
      simp only [hf, hsw, copyToPod, hu]
      refine ⟨(by first | rfl | trivial), (by first | rfl | trivial), fun h => by simp at h, fun r _ =>
        ⟨⟨info.Id, info.PodNamespace, info.PodName, info.PodCpuMax, info.PodMemoryMax,
          info.PodReplicas, info.PodPort, info.PodEnv, info.PodPullPolicy, info.PodImage⟩,
          rfl, rfl, rfl⟩⟩

theorem calm_Delete (ns name : String) (w : World) :
    (k8sDelete calmEnv ns name w).1 =
      match findDeployment w.cluster ns name with
      | some _ => none
      | none => some ("deployments.apps \"" ++ name ++ "\" not found") := by
  unfold k8sDelete
  cases findDeployment w.cluster ns name with
  | some d => rfl
  | none => rfl

/-- DeletePod where nothing fails: an unknown ID or a record whose workload is
not live changes nothing; otherwise the workload of the record's identity and
the records of its ID are removed. -/
theorem DeletePod_calm (podId : Int) (response : Response) (w : World) :
    (w.records.find? (fun r => decide (r.ID = podId)) = none →
        Untouched w (PodHandler.DeletePod calmEnv podId response w).world) ∧
      (∀ r, w.records.find? (fun r => decide (r.ID = podId)) = some r →
        (findDeployment w.cluster r.PodNamespace r.PodName = none →
          Untouched w (PodHandler.DeletePod calmEnv podId response w).world) ∧
        (∀ d, findDeployment w.cluster r.PodNamespace r.PodName = some d →
          (PodHandler.DeletePod calmEnv podId response w).world.cluster =
              removeLive r.PodNamespace r.PodName w.cluster ∧
            (PodHandler.DeletePod calmEnv podId response w).world.records =
              w.records.filter (fun x => !decide (x.ID = r.ID)) ∧
            (PodHandler.DeletePod calmEnv podId response w).world.nextID = w.nextID)) := by
  have hf := calm_Find podId w
  constructor
  · intro hnone
    rw [hnone] at hf
    rw [DeletePod_table]
    simp only [hf]
    exact ⟨(by first | rfl | trivial), (by first | rfl | trivial), (by first | rfl | trivial)⟩
  · intro r hr
    rw [hr] at hf
    have hd := calm_Delete r.PodNamespace r.PodName w
    have hx : ∀ i : Int, (PodRepository.DeletePodByID calmEnv i w).1 = none := fun _ => rfl
    constructor
    · intro habs
      rw [habs] at hd
      rw [DeletePod_table]
      simp only [hf, hd]
      exact ⟨(by first | rfl | trivial), (by first | rfl | trivial), (by first | rfl | trivial)⟩
    · intro d hlive
      rw [hlive] at hd
      rw [DeletePod_table]
      simp only [hf, hd, hx]
      exact ⟨(by first | rfl | trivial), (by first | rfl | trivial), (by first | rfl | trivial)⟩

theorem findDeployment_none (cluster : List Deployment) (ns name : String)
    (h : findDeployment cluster ns name = none) :
    ∀ d ∈ cluster, d.identity ≠ (ns, name) := by
  unfold findDeployment at h
  rw [List.find?_eq_none] at h
  intro d hd hident
  apply h d hd
  have h1 : d.Namespace = ns := congrArg Prod.fst hident
  have h2 : d.Name = name := congrArg Prod.snd hident
  simp [h1, h2]

theorem findDeployment_some (cluster : List Deployment) (ns name : String) (d : Deployment)
    (h : findDeployment cluster ns name = some d) :
    d ∈ cluster ∧ d.identity = (ns, name) := by
  unfold findDeployment at h
  refine ⟨List.mem_of_find?_eq_some h, ?_⟩
  have := List.find?_some h
  simp only [decide_eq_true_eq] at this
  unfold Deployment.identity
  rw [this.1, this.2]

theorem find_record_some (records : List Pod) (podId : Int) (r : Pod)
    (h : records.find? (fun r => decide (r.ID = podId)) = some r) :
    r ∈ records ∧ r.ID = podId := by
  refine ⟨List.mem_of_find?_eq_some h, ?_⟩
  simpa using List.find?_some h

theorem find_record_none (records : List Pod) (podId : Int)
    (h : records.find? (fun r => decide (r.ID = podId)) = none) :
    ∀ r ∈ records, r.ID ≠ podId := by
  rw [List.find?_eq_none] at h
  intro r hr
  simpa using h r hr

theorem replaceLive_identity (info : PodInfo) (cluster : List Deployment) :
    (replaceLive info cluster).map Deployment.identity = cluster.map Deployment.identity := by
  unfold replaceLive
  rw [List.map_map]
  apply List.map_congr_left
  intro old _
  by_cases h : old.Namespace = info.PodNamespace ∧ old.Name = (setDeployment info).Name
  · simp only [Function.comp, if_pos h]
    unfold Deployment.identity
    rw [h.1, h.2]
    rfl
  · simp only [Function.comp, if_neg h]

theorem Consistent_untouched (w w1 : World) (h : Untouched w w1) (hC : Consistent w) :
    Consistent w1 := by
  obtain ⟨h1, h2, h3⟩ := h
  unfold Consistent OneToOne at *
  rw [h1, h2, h3]
  exact hC

theorem Consistent_add (w w1 : World) (info : PodInfo) (r : Pod) (hC : Consistent w)
    (habs : findDeployment w.cluster info.PodNamespace info.PodName = none)
    (hc : w1.cluster = w.cluster ++ [setDeployment info])
    (hid : r.ID = w.nextID) (hident : r.identity = (info.PodNamespace, info.PodName))
    (hr : w1.records = w.records ++ [r]) (hn : w1.nextID = w.nextID + 1) :
    Consistent w1 := by
  obtain ⟨⟨n1, n2, n3⟩, i4, i5, i6⟩ := hC
  have hnone := findDeployment_none _ _ _ habs
  have hsd : (setDeployment info).identity = (info.PodNamespace, info.PodName) := rfl
  have hfresh : ∀ x ∈ w.records, x.identity ≠ (info.PodNamespace, info.PodName) := by
    intro x hx hxi
    obtain ⟨d, hd, hdi⟩ := n2 x hx
    exact hnone d hd (hdi.trans hxi)
  unfold Consistent OneToOne
  rw [hc, hr, hn]
  refine ⟨⟨?_, ?_, ?_⟩, ?_, ?_, ?_⟩
  · rw [List.map_append, List.nodup_append]
    refine ⟨n1, by simp, ?_⟩
    intro i hi1 hi2
    obtain ⟨x, hx, hxi⟩ := List.mem_map.mp hi1
    simp only [List.map_cons, List.map_nil, List.mem_singleton] at hi2
    exact hfresh x hx (hxi.trans (hi2.trans hident))
  · intro x hx
    rcases List.mem_append.mp hx with hx | hx
    · obtain ⟨d, hd, hdi⟩ := n2 x hx
      exact ⟨d, List.mem_append_left _ hd, hdi⟩
    · rw [List.mem_singleton.mp hx]
      exact ⟨setDeployment info, List.mem_append_right _ (List.mem_singleton.mpr rfl),
        hsd.trans hident.symm⟩
  · intro d hd
    rcases List.mem_append.mp hd with hd | hd
    · obtain ⟨x, hx, hxi⟩ := n3 d hd
      exact ⟨x, List.mem_append_left _ hx, hxi⟩
    · rw [List.mem_singleton.mp hd]
      exact ⟨r, List.mem_append_right _ (List.mem_singleton.mpr rfl), hident.trans hsd.symm⟩
  · intro x hx
    rcases List.mem_append.mp hx with hx | hx
    · have := i4 x hx
      omega
    · rw [List.mem_singleton.mp hx, hid]
      omega
  · rw [List.map_append, List.nodup_append]
    refine ⟨i5, by simp, ?_⟩
    intro i hi1 hi2
    obtain ⟨x, hx, hxi⟩ := List.mem_map.mp hi1
    simp only [List.map_cons, List.map_nil, List.mem_singleton] at hi2
    have := i4 x hx
    rw [hxi, hi2, hid] at this
    omega
  · rw [List.map_append, List.nodup_append]
    refine ⟨i6, by simp, ?_⟩
    intro i hi1 hi2
    obtain ⟨d, hd, hdi⟩ := List.mem_map.mp hi1
    simp only [List.map_cons, List.map_nil, List.mem_singleton] at hi2
    exact hnone d hd (hdi.trans (hi2.trans hsd))

theorem Consistent_lists (w w1 : World)
    (hci : w1.cluster.map Deployment.identity = w.cluster.map Deployment.identity)
    (hri : w1.records.map Pod.identity = w.records.map Pod.identity)
    (hrid : w1.records.map (fun r => r.ID) = w.records.map (fun r => r.ID))
    (hn : w1.nextID = w.nextID) (hC : Consistent w) : Consistent w1 := by
  obtain ⟨⟨n1, n2, n3⟩, i4, i5, i6⟩ := hC
  refine ⟨⟨by rw [hri]; exact n1, ?_, ?_⟩, ?_, by rw [hrid]; exact i5, by rw [hci]; exact i6⟩
  · intro r hr
    have h1 : r.identity ∈ w.records.map Pod.identity := by
      rw [← hri]; exact List.mem_map_of_mem _ hr
    obtain ⟨x, hx, hxi⟩ := List.mem_map.mp h1
    obtain ⟨d, hd, hdi⟩ := n2 x hx
    have h2 : d.identity ∈ w1.cluster.map Deployment.identity := by
      rw [hci]; exact List.mem_map_of_mem _ hd
    obtain ⟨d1, hd1, hd1i⟩ := List.mem_map.mp h2
    exact ⟨d1, hd1, hd1i.trans (hdi.trans hxi)⟩
  · intro d hd
    have h1 : d.identity ∈ w.cluster.map Deployment.identity := by
      rw [← hci]; exact List.mem_map_of_mem _ hd
    obtain ⟨x, hx, hxi⟩ := List.mem_map.mp h1
    obtain ⟨r, hr, hri1⟩ := n3 x hx
    have h2 : r.identity ∈ w1.records.map Pod.identity := by
      rw [hri]; exact List.mem_map_of_mem _ hr
    obtain ⟨r1, hr1, hr1i⟩ := List.mem_map.mp h2
    exact ⟨r1, hr1, hr1i.trans (hri1.trans hxi)⟩
  · intro r hr
    have h1 : r.ID ∈ w.records.map (fun r => r.ID) := by
      rw [← hrid]; exact List.mem_map_of_mem (fun r => r.ID) hr
    obtain ⟨x, hx, hxi⟩ := List.mem_map.mp h1
    have := i4 x hx
    have hxi2 : x.ID = r.ID := hxi
    rw [hn, ← hxi2]
    exact this

theorem Consistent_update (w w1 : World) (info : PodInfo) (pm : Pod) (hC : Consistent w)
    (hcoh : ∀ r ∈ w.records, r.ID = info.Id →
      r.identity = (info.PodNamespace, info.PodName))
    (hc : w1.cluster = replaceLive info w.cluster) (hn : w1.nextID = w.nextID)
    (hid : pm.ID = info.Id) (hident : pm.identity = (info.PodNamespace, info.PodName))
    (hr : w1.records = w.records.map (fun r => if r.ID = pm.ID then pm else r)) :
    Consistent w1 := by
  apply Consistent_lists w w1 _ _ _ hn hC
  · rw [hc, replaceLive_identity]
  · rw [hr, List.map_map]
    apply List.map_congr_left
    intro r hrm
    by_cases h : r.ID = pm.ID
    · simp only [Function.comp, if_pos h]
      rw [hident, hcoh r hrm (h.trans hid)]
    · simp only [Function.comp, if_neg h]
  · rw [hr, List.map_map]
    apply List.map_congr_left
    intro r _
    by_cases h : r.ID = pm.ID
    · simp only [Function.comp, if_pos h]
      exact h.symm
    · simp only [Function.comp, if_neg h]

theorem Consistent_delete (w w1 : World) (r : Pod) (hC : Consistent w) (hr : r ∈ w.records)
    (hc : w1.cluster = removeLive r.PodNamespace r.PodName w.cluster)
    (hrec : w1.records = w.records.filter (fun x => !decide (x.ID = r.ID)))
    (hn : w1.nextID = w.nextID) : Consistent w1 := by
  obtain ⟨⟨n1, n2, n3⟩, i4, i5, i6⟩ := hC
  have hkeepd : ∀ d, d ∈ w1.cluster ↔ d ∈ w.cluster ∧ d.identity ≠ r.identity := by
    intro d
    rw [hc]
    unfold removeLive
    rw [List.mem_filter]
    constructor
    · rintro ⟨hd, hne⟩
      refine ⟨hd, fun hi => ?_⟩
      have h1 : d.Namespace = r.PodNamespace := congrArg Prod.fst hi
      have h2 : d.Name = r.PodName := congrArg Prod.snd hi
      simp [h1, h2] at hne
    · rintro ⟨hd, hne⟩
      refine ⟨hd, ?_⟩
      simp only [Bool.not_eq_true', decide_eq_false_iff_not]
      rintro ⟨h1, h2⟩
      apply hne
      unfold Deployment.identity Pod.identity
      rw [h1, h2]
  have hkeepr : ∀ x, x ∈ w1.records ↔ x ∈ w.records ∧ x.ID ≠ r.ID := by
    intro x
    rw [hrec, List.mem_filter]
    simp
  refine ⟨⟨?_, ?_, ?_⟩, ?_, ?_, ?_⟩
  · rw [hrec]
    exact n1.sublist ((List.filter_sublist _).map _)
  · intro x hx
    obtain ⟨hxm, hxid⟩ := (hkeepr x).mp hx
    obtain ⟨d, hd, hdi⟩ := n2 x hxm
    refine ⟨d, (hkeepd d).mpr ⟨hd, fun hi => ?_⟩, hdi⟩
    have : x = r := List.inj_on_of_nodup_map n1 hxm hr (hdi.symm.trans hi)
    exact hxid (by rw [this])
  · intro d hd
    obtain ⟨hdm, hdi⟩ := (hkeepd d).mp hd
    obtain ⟨x, hx, hxi⟩ := n3 d hdm
    refine ⟨x, (hkeepr x).mpr ⟨hx, fun hid => ?_⟩, hxi⟩
    have : x = r := List.inj_on_of_nodup_map i5 hx hr hid
    exact hdi (by rw [← hxi, this])
  · intro x hx
    rw [hn]
    exact i4 x ((hkeepr x).mp hx).1
  · rw [hrec]
    exact i5.sublist ((List.filter_sublist _).map _)
  · rw [hc]
    unfold removeLive
    exact i6.sublist ((List.filter_sublist _).map _)

theorem Consistent_emptyWorld : Consistent emptyWorld := by
  refine ⟨⟨?_, ?_, ?_⟩, ?_, ?_, ?_⟩ <;> simp [emptyWorld]

/-- Every lifecycle call keeps the state consistent when nothing fails and the
call, if an update, is coherent. -/
theorem Consistent_run (op : Op) (w : World) (hC : Consistent w) (hcoh : op.coherent w) :
    Consistent (op.run calmEnv w).world := by
  cases op with
  | add info =>
    show Consistent (PodHandler.AddPod calmEnv info ⟨""⟩ w).world
    have h := AddPod_calm info ⟨""⟩ w
    cases hfd : findDeployment w.cluster info.PodNamespace info.PodName with
    | some d => exact Consistent_untouched _ _ (h.2 d hfd) hC
    | none =>
      obtain ⟨hc, ⟨r, hid, hident, hr⟩, hn⟩ := h.1 hfd
      exact Consistent_add w _ info r hC hfd hc hid hident hr hn
  | update info =>
    show Consistent (PodHandler.UpdatePod calmEnv info ⟨""⟩ w).world
    have h := UpdatePod_calm info ⟨""⟩ w
    cases hfd : findDeployment w.cluster info.PodNamespace info.PodName with
    | none => exact Consistent_untouched _ _ (h.1 hfd) hC
    | some d =>
      obtain ⟨hc, hn, hnone, hsome⟩ := h.2 d hfd
      cases hfr : List.find? (fun r => decide (r.ID = info.Id)) w.records with
      | none =>
        apply Consistent_lists w _ _ _ _ hn hC
        · rw [hc, replaceLive_identity]
        · rw [hnone hfr]
        · rw [hnone hfr]
      | some r0 =>
        obtain ⟨pm, hid, hident, hr⟩ := hsome r0 hfr
        exact Consistent_update w _ info pm hC hcoh hc hn hid hident hr
  | delete podId =>
    show Consistent (PodHandler.DeletePod calmEnv podId ⟨""⟩ w).world
    have h := DeletePod_calm podId ⟨""⟩ w
    cases hfr : List.find? (fun r => decide (r.ID = podId)) w.records with
    | none => exact Consistent_untouched _ _ (h.1 hfr) hC
    | some r =>
      cases hfd : findDeployment w.cluster r.PodNamespace r.PodName with
      | none => exact Consistent_untouched _ _ ((h.2 r hfr).1 hfd) hC
      | some d =>
        obtain ⟨hc, hrec, hn⟩ := (h.2 r hfr).2 d hfd
        exact Consistent_delete w _ r hC (find_record_some _ _ _ hfr).1 hc hrec hn

theorem Reachable_consistent (w : World) (h : Reachable w) : Consistent w := by
  induction h with
  | init => exact Consistent_emptyWorld
  | step w op _ hcoh ih => exact Consistent_run op w ih hcoh

/-- C16 as stated fails.  On the empty cluster and record store, AddPod of
`svc-a`, AddPod of `svc-b` and UpdatePod of a descriptor that carries Id 1 (the
record of `svc-a`) and the name `svc-b` all return nil, so no call fails; in
the state reached both records have the identity (default, svc-b) and the live
workload `svc-a` has no record. -/
theorem crossed_update_breaks_correspondence :
    (runAll calmEnv [.add svcA, .add svcB, .update crossed] emptyWorld).1 =
        [none, none, none] ∧
      (runAll calmEnv [.add svcA, .add svcB, .update crossed] emptyWorld).2.records.map
          (fun r => (r.ID, r.identity)) =
        [(1, ("default", "svc-b")), (2, ("default", "svc-b"))] ∧
      (runAll calmEnv [.add svcA, .add svcB, .update crossed] emptyWorld).2.cluster.map
          Deployment.identity =
        [("default", "svc-a"), ("default", "svc-b")] ∧
      ¬ OneToOne (runAll calmEnv [.add svcA, .add svcB, .update crossed] emptyWorld).2 := by
  decide

/-- C16 amended: in every state reached from the empty cluster and the empty
record store by AddPod, UpdatePod and DeletePod calls in which no call fails
and every UpdatePod descriptor carries the (namespace, name) of the record
stored under its Id, if there is one, records and live workloads correspond
one to one by (namespace, name): no two records share an identity, every
record's identity names a live workload, and every live workload has a
record. -/
theorem reachable_one_to_one (w : World) (h : Reachable w) : OneToOne w := by
  have hC := Reachable_consistent w h
  exact hC.1

/-- The amended C16 after AddPod of the scenario descriptor and an UpdatePod
that scales it, naming its own record. -/
theorem reachable_one_to_one_witness :
    OneToOne
      (Op.run calmEnv (.update svcAScaled) (Op.run calmEnv (.add svcA) emptyWorld).world).world :=
  reachable_one_to_one _
    (Reachable.step _ _ (Reachable.step _ _ Reachable.init trivial) (by decide))

end PodService
